import Mathlib

set_option maxRecDepth 100000

/-!
Shallow embedding of the core of the `delta_trader` repository:
the indicator library (`utils/indicators.py`), the market filters
(`strategy/filters.py`), the setup detector (`strategy/setups.py`),
the position sizer (`risk/position_sizing.py`) and the backtest
simulation engine (`backtest/engine.py`), together with theorems
settling the frozen claims about them.

Conventions of the embedding:
* prices and all other float quantities are modelled as rationals (`ℚ`);
* pandas series are modelled as Lean lists indexed from 0; a rolling
  indicator produces a `List (Option ℚ)` of the same length, `none`
  standing for the leading `NaN` cells of an incomplete window;
* a float `NaN` produced by arithmetic (e.g. the RSI of a flat window,
  where the average gain and average loss are both zero) is also
  modelled as `none`; a Python comparison against `NaN` is false, which
  the embedding renders by matching on the `Option`;
* timestamps are natural numbers counted in minutes, so that the
  engine's `(timestamp - entry_time).total_seconds() / 60` becomes
  plain subtraction;
* Python exceptions are modelled with `Except String`.
-/

/-- One OHLCV row of a pandas DataFrame (the `volume` column is never
read by any of the modelled code). `open_` stands for the `open`
column, `open` being a Lean keyword. -/
structure Bar where
  open_ : ℚ
  high : ℚ
  low : ℚ
  close : ℚ
  volume : ℚ
deriving DecidableEq

instance : Inhabited Bar := ⟨⟨0, 0, 0, 0, 0⟩⟩

/-- A well-formed OHLC bar: positive prices and the close inside the
low–high range. Real exchange data satisfies this; several theorems
assume it. -/
def WellFormedBar (b : Bar) : Prop :=
  0 < b.low ∧ b.low ≤ b.high ∧ b.low ≤ b.close ∧ b.close ≤ b.high

instance (b : Bar) : Decidable (WellFormedBar b) := by
  unfold WellFormedBar; infer_instance

/-- The trailing window of length `n` of the index function `f`,
ending at index `i` inclusive (pandas `rolling(n)` window for row `i`;
only used when `n ≤ i + 1`). -/
def windowList (f : ℕ → ℚ) (i n : ℕ) : List ℚ :=
  (List.range n).map (fun k => f (i + 1 - n + k))

/-- Sum of the trailing window (used for rolling means). -/
def windowSum (f : ℕ → ℚ) (i n : ℕ) : ℚ :=
  (windowList f i n).sum

/-- Value at index `j` of a list of rationals, `0` out of range (the
modelled code only evaluates it in range). -/
def atQ (xs : List ℚ) (j : ℕ) : ℚ :=
  xs.getD j 0

/-- `series.ewm(span=period, adjust=False).mean()` recursion:
`e₀ = x₀`, `eᵢ = α xᵢ + (1 - α) eᵢ₋₁` with `α = 2 / (period + 1)`. -/
def emaAux (a : ℚ) : ℚ → List ℚ → List ℚ
  | _, [] => []
  | prev, x :: rest =>
      let e := a * x + (1 - a) * prev
      e :: emaAux a e rest

/-- `ema(series, period)` from `utils/indicators.py`. -/
def ema (xs : List ℚ) (period : ℕ) : List ℚ :=
  match xs with
  | [] => []
  | x :: rest => x :: emaAux (2 / (period + 1)) x rest

/-- `sma(series, period)`: rolling mean, `none` while the window is
incomplete. -/
def sma (xs : List ℚ) (period : ℕ) : List (Option ℚ) :=
  (List.range xs.length).map (fun i =>
    if period ≤ i + 1 then some (windowSum (atQ xs) i period / period) else none)

/-- Gain series of `rsi`: `delta.where(delta > 0, 0)`; the leading
`NaN` of `diff()` compares false against `0` and is replaced by `0`. -/
def gainAt (xs : List ℚ) (j : ℕ) : ℚ :=
  if j = 0 then 0
  else
    let d := atQ xs j - atQ xs (j - 1)
    if 0 < d then d else 0

/-- Loss series of `rsi`: `(-delta.where(delta < 0, 0))`. -/
def lossAt (xs : List ℚ) (j : ℕ) : ℚ :=
  if j = 0 then 0
  else
    let d := atQ xs j - atQ xs (j - 1)
    if d < 0 then -d else 0

/-- `rsi(series, period)` from `utils/indicators.py`:
`100 - 100 / (1 + rs)` with `rs` the ratio of rolling average gain to
rolling average loss. Float semantics of the ratio: positive/0 = `inf`
(so the RSI is `100`, the division-by-zero case the spec requires),
0/0 = `NaN` (modelled as `none`). -/
def rsi (xs : List ℚ) (period : ℕ) : List (Option ℚ) :=
  (List.range xs.length).map (fun i =>
    if period ≤ i + 1 then
      let ag := windowSum (gainAt xs) i period / period
      let al := windowSum (lossAt xs) i period / period
      if 0 < al then some (100 - 100 / (1 + ag / al))
      else if 0 < ag then some 100
      else none
    else none)

/-- True-range series of `atr`: row 0 has `NaN` in both shifted terms,
and the pandas `max(axis=1)` skips `NaN`, leaving `high - low`. -/
def trAt (df : List Bar) (j : ℕ) : ℚ :=
  let b := df.getD j default
  if j = 0 then b.high - b.low
  else
    let pc := (df.getD (j - 1) default).close
    max (max (b.high - b.low) |b.high - pc|) |b.low - pc|

/-- `atr(high, low, close, period)` from `utils/indicators.py`:
rolling mean of the true range. -/
def atr (df : List Bar) (period : ℕ) : List (Option ℚ) :=
  (List.range df.length).map (fun i =>
    if period ≤ i + 1 then some (windowSum (trAt df) i period / period) else none)

/-- `rolling_high(series, period)`: rolling max. -/
def rolling_high (xs : List ℚ) (period : ℕ) : List (Option ℚ) :=
  (List.range xs.length).map (fun i =>
    if period ≤ i + 1 then (windowList (atQ xs) i period).max? else none)

/-- `rolling_low(series, period)`: rolling min. -/
def rolling_low (xs : List ℚ) (period : ℕ) : List (Option ℚ) :=
  (List.range xs.length).map (fun i =>
    if period ≤ i + 1 then (windowList (atQ xs) i period).min? else none)

/-- Rational square root used for the rolling standard deviation:
exact on ratios of perfect squares, in particular `sqrtQ 0 = 0`. The
source computes a float square root; every theorem below evaluates the
standard deviation only on flat windows, where the variance is `0` and
both agree exactly. -/
def sqrtQ (q : ℚ) : ℚ :=
  if q ≤ 0 then 0 else (Nat.sqrt q.num.toNat : ℚ) / (Nat.sqrt q.den : ℚ)

/-- Rolling sample standard deviation (`series.rolling(n).std()`,
pandas default `ddof = 1`). -/
def rollingStd (xs : List ℚ) (period : ℕ) : List (Option ℚ) :=
  (List.range xs.length).map (fun i =>
    if period ≤ i + 1 then
      let m := windowSum (atQ xs) i period / period
      some (sqrtQ (windowSum (fun j => (atQ xs j - m) ^ 2) i period / (period - 1)))
    else none)

/-- Pointwise combination of two indicator series; `none` (`NaN`)
poisons, as float arithmetic does. -/
def zipO (f : ℚ → ℚ → ℚ) (xs ys : List (Option ℚ)) : List (Option ℚ) :=
  List.zipWith (fun a b =>
    match a, b with
    | some x, some y => some (f x y)
    | _, _ => none) xs ys

/-- `bollinger_bands` upper band: `middle + std * std_dev`. -/
def bb_upper (xs : List ℚ) (period : ℕ) (std_dev : ℚ) : List (Option ℚ) :=
  zipO (fun m s => m + s * std_dev) (sma xs period) (rollingStd xs period)

/-- `bollinger_bands` lower band: `middle - std * std_dev`. -/
def bb_lower (xs : List ℚ) (period : ℕ) (std_dev : ℚ) : List (Option ℚ) :=
  zipO (fun m s => m - s * std_dev) (sma xs period) (rollingStd xs period)

/-- `bollinger_bands` width: `(upper - lower) / middle`. -/
def bb_width (xs : List ℚ) (period : ℕ) (std_dev : ℚ) : List (Option ℚ) :=
  zipO (fun d m => d / m)
    (zipO (fun u l => u - l) (bb_upper xs period std_dev) (bb_lower xs period std_dev))
    (sma xs period)

/-- Rolling mean over a series that already contains `NaN`s
(`width.rolling(50).mean()`): any `NaN` inside the window poisons the
result (pandas `min_periods` defaults to the window size). -/
def rollingMeanO (ys : List (Option ℚ)) (period : ℕ) : List (Option ℚ) :=
  (List.range ys.length).map (fun i =>
    if period ≤ i + 1 then
      let w := (List.range period).map (fun k => ys.getD (i + 1 - period + k) none)
      if w.all Option.isSome then
        some ((w.map (fun o => o.getD 0)).sum / period)
      else none
    else none)

/-- `series.iloc[-1]` of an indicator series (`NaN` as `none`). -/
def lastO (ys : List (Option ℚ)) : Option ℚ :=
  (ys.get? (ys.length - 1)).join

/-- `series.iloc[-2]` of an indicator series. -/
def penultO (ys : List (Option ℚ)) : Option ℚ :=
  (ys.get? (ys.length - 2)).join

/-- `series.iloc[-1]` of a total series such as an EMA (guarded by
length checks in every caller). -/
def lastQ (xs : List ℚ) : ℚ :=
  xs.getLast?.getD 0

/-! ### Configuration constants (`config/settings.py`)

Only the settings read by the modelled code are embedded; each keeps
its source name and value. -/

def CAPITAL_INR : ℚ := 1000

def LEVERAGE : ℚ := 5

def EFFECTIVE_CAPITAL : ℚ := CAPITAL_INR * LEVERAGE

def POSITION_SIZE_BASE_PCT : ℚ := 0.4

def POSITION_SIZE_PCT : ℚ := POSITION_SIZE_BASE_PCT

def MAX_POSITIONS : ℕ := 2

def MAX_DAILY_TRADES : ℕ := 8

def USE_ATR_BASED_EXITS : Bool := true

def ATR_PERIOD : ℕ := 14

def STOP_LOSS_ATR_MULTIPLE : ℚ := 1.5

def TAKE_PROFIT_1_ATR_MULTIPLE : ℚ := 1.0

def TREND_FILTER_ENABLED : Bool := true

def TREND_EMA_FAST : ℕ := 21

def TREND_EMA_SLOW : ℕ := 55

def TREND_THRESHOLD_PCT : ℚ := 0.003

def RANGING_ZONE_PCT : ℚ := 0.003

/-- `TREND_TRADING_RULES` dict; accessed with `.get(trend_state, [])`. -/
def TREND_TRADING_RULES : String → List String := fun s =>
  if s = "uptrend" then ["LONG"]
  else if s = "downtrend" then ["SHORT"]
  else if s = "ranging" then []
  else []

/-- `ENABLED_SETUPS` dict; accessed with `.get(setup_type, False)`. -/
def ENABLED_SETUPS : String → Bool := fun t =>
  if t = "EMA_PULLBACK_LONG" then true
  else if t = "EMA_PULLBACK_SHORT" then false
  else if t = "BREAKOUT_LONG" then false
  else if t = "BREAKOUT_SHORT" then true
  else if t = "RSI_OVERSOLD_LONG" then true
  else if t = "RSI_OVERBOUGHT_SHORT" then false
  else if t = "RANGE_BOUNCE_LONG" then false
  else if t = "RANGE_BOUNCE_SHORT" then false
  else if t = "MOMENTUM_LONG" then false
  else if t = "MOMENTUM_SHORT" then false
  else false

/-- `SETUP_BASE_SCORES` dict; accessed with `.get(key, default)`. -/
def SETUP_BASE_SCORES : String → Option ℚ := fun t =>
  if t = "EMA_PULLBACK_LONG" then some 0.65
  else if t = "EMA_PULLBACK_SHORT" then some 0.50
  else if t = "BREAKOUT_LONG" then some 0.45
  else if t = "BREAKOUT_SHORT" then some 0.55
  else if t = "RSI_OVERSOLD_LONG" then some 0.55
  else if t = "RSI_OVERBOUGHT_SHORT" then some 0.50
  else if t = "RANGE_BOUNCE_LONG" then some 0.45
  else if t = "RANGE_BOUNCE_SHORT" then some 0.45
  else if t = "MOMENTUM_LONG" then some 0.40
  else if t = "MOMENTUM_SHORT" then some 0.40
  else none

def REQUIRE_ENTRY_CONFIRMATION : Bool := true

/-- `EMA_PULLBACK_CONFIG["ema_distance_max_pct"]`. -/
def EMA_PULLBACK_ema_distance_max_pct : ℚ := 0.005

/-- `EMA_PULLBACK_CONFIG["ema_distance_min_pct"]`. -/
def EMA_PULLBACK_ema_distance_min_pct : ℚ := 0.001

/-- `EMA_PULLBACK_CONFIG["rsi_min"]`. -/
def EMA_PULLBACK_rsi_min : ℚ := 35

/-- `EMA_PULLBACK_CONFIG["rsi_max"]`. -/
def EMA_PULLBACK_rsi_max : ℚ := 50

def COOLDOWN_ENABLED : Bool := true

def COOLDOWN_AFTER_ENTRY_CANDLES : ℕ := 8

def COOLDOWN_AFTER_EXIT_CANDLES : ℕ := 4

def COOLDOWN_AFTER_LOSS_CANDLES : ℕ := 6

def MIN_CANDLES_BETWEEN_ANY_TRADE : ℕ := 2

def VOLATILITY_FILTER_ENABLED : Bool := true

/-- `FEATURES` feature-flag dict; accessed with `.get(key, default)`. -/
def FEATURES : String → Bool := fun k =>
  if k = "trend_filter" then true
  else if k = "cooldown_system" then true
  else if k = "volatility_filter" then true
  else if k = "volume_filter" then false
  else if k = "atr_based_exits" then true
  else if k = "partial_profit_taking" then false
  else if k = "breakeven_stop" then false
  else if k = "entry_confirmation" then true
  else if k = "time_based_exits" then true
  else false

/-! ### Setups (`strategy/setups.py`) -/

/-- The dict returned by a setup evaluator. `symbol` and `trend_state`
are filled in by `detect_all_setups`; evaluators leave them empty.
The `reason` strings keep the source's static text; the numeric
interpolations of the f-strings are elided. -/
structure Setup where
  type : String
  direction : String
  score : ℚ
  entry : ℚ
  stop : ℚ
  target : ℚ
  reason : String
  symbol : String := ""
  trend_state : String := ""
deriving DecidableEq

/-- `SetupDetector.min_score` (set in `__init__`, line 40). -/
def min_score : ℚ := 0.4

/-- `SetupDetector.detect_ema_pullback` (setups.py lines 102-205).
`rsi_value` may be `NaN` (`none`) on a flat window; the Python
comparison `rsi_min < rsi_value < rsi_max` is then false and the
evaluator returns `None`. `atr_value` is truthy iff it is nonzero. -/
def detect_ema_pullback (df : List Bar) : Option Setup :=
  if df.length < 55 then none
  else
    let close := df.map Bar.close
    let current_price := lastQ close
    let ema_21 := lastQ (ema close 21)
    let ema_55 := lastQ (ema close 55)
    let distance_to_ema := (current_price - ema_21) / ema_21
    let atr_value : Option ℚ :=
      if USE_ATR_BASED_EXITS then lastO (atr df ATR_PERIOD) else none
    let rsi_value : Option ℚ := lastO (rsi close 14)
    if ema_55 < ema_21 then
      let max_dist : ℚ :=
        if REQUIRE_ENTRY_CONFIRMATION then EMA_PULLBACK_ema_distance_max_pct else 0.01
      let min_dist : ℚ :=
        if REQUIRE_ENTRY_CONFIRMATION then -EMA_PULLBACK_ema_distance_min_pct else -0.01
      if min_dist < distance_to_ema ∧ distance_to_ema < max_dist then
        let mk : Option Setup :=
          let st :=
            match atr_value with
            | some a =>
                if a ≠ 0 then
                  (current_price - STOP_LOSS_ATR_MULTIPLE * a,
                   current_price + TAKE_PROFIT_1_ATR_MULTIPLE * a)
                else (ema_55 * 0.995, current_price * 1.015)
            | none => (ema_55 * 0.995, current_price * 1.015)
          some { type := "EMA_PULLBACK_LONG", direction := "LONG",
                 score := (SETUP_BASE_SCORES "EMA_PULLBACK_LONG").getD 0.65,
                 entry := current_price, stop := st.1, target := st.2,
                 reason := "Price near 21 EMA in uptrend" }
        if REQUIRE_ENTRY_CONFIRMATION ∧ FEATURES "entry_confirmation" then
          match rsi_value with
          | some r =>
              if EMA_PULLBACK_rsi_min < r ∧ r < EMA_PULLBACK_rsi_max then mk else none
          | none => none
        else mk
      else none
    else if ema_21 < ema_55 then
      let max_dist : ℚ :=
        if REQUIRE_ENTRY_CONFIRMATION then EMA_PULLBACK_ema_distance_max_pct else 0.01
      let min_dist : ℚ :=
        if REQUIRE_ENTRY_CONFIRMATION then -EMA_PULLBACK_ema_distance_min_pct else -0.005
      if min_dist < distance_to_ema ∧ distance_to_ema < max_dist then
        let mk : Option Setup :=
          let st :=
            match atr_value with
            | some a =>
                if a ≠ 0 then
                  (current_price + STOP_LOSS_ATR_MULTIPLE * a,
                   current_price - TAKE_PROFIT_1_ATR_MULTIPLE * a)
                else (ema_55 * 1.005, current_price * 0.985)
            | none => (ema_55 * 1.005, current_price * 0.985)
          some { type := "EMA_PULLBACK_SHORT", direction := "SHORT",
                 score := (SETUP_BASE_SCORES "EMA_PULLBACK_SHORT").getD 0.50,
                 entry := current_price, stop := st.1, target := st.2,
                 reason := "Price near 21 EMA in downtrend" }
        if REQUIRE_ENTRY_CONFIRMATION ∧ FEATURES "entry_confirmation" then
          match rsi_value with
          | some r => if 50 < r ∧ r < 65 then mk else none
          | none => none
        else mk
      else none
    else none

/-- `SetupDetector.detect_breakout` (setups.py lines 207-271). The
20-period extremes are read at `iloc[-2]` (the bar before the current
one); with `len(df) ≥ 21` they are defined. -/
def detect_breakout (df : List Bar) : Option Setup :=
  if df.length < 21 then none
  else
    let close := df.map Bar.close
    let high := df.map Bar.high
    let low := df.map Bar.low
    let current_price := lastQ close
    match penultO (rolling_high high 20), penultO (rolling_low low 20) with
    | some high_20, some low_20 =>
      let atr_value : Option ℚ :=
        if USE_ATR_BASED_EXITS then lastO (atr df ATR_PERIOD) else none
      if high_20 < current_price then
        let st :=
          match atr_value with
          | some a =>
              if a ≠ 0 then
                (current_price - STOP_LOSS_ATR_MULTIPLE * a,
                 current_price + TAKE_PROFIT_1_ATR_MULTIPLE * a)
              else (high_20 * 0.99, current_price * 1.02)
          | none => (high_20 * 0.99, current_price * 1.02)
        some { type := "BREAKOUT_LONG", direction := "LONG",
               score := (SETUP_BASE_SCORES "BREAKOUT_LONG").getD 0.45,
               entry := current_price, stop := st.1, target := st.2,
               reason := "Broke above 20-period high" }
      else if current_price < low_20 then
        let st :=
          match atr_value with
          | some a =>
              if a ≠ 0 then
                (current_price + STOP_LOSS_ATR_MULTIPLE * a,
                 current_price - TAKE_PROFIT_1_ATR_MULTIPLE * a)
              else (low_20 * 1.01, current_price * 0.98)
          | none => (low_20 * 1.01, current_price * 0.98)
        some { type := "BREAKOUT_SHORT", direction := "SHORT",
               score := (SETUP_BASE_SCORES "BREAKOUT_SHORT").getD 0.55,
               entry := current_price, stop := st.1, target := st.2,
               reason := "Broke below 20-period low" }
      else none
    | _, _ => none

/-- `SetupDetector.detect_rsi_extreme` (setups.py lines 273-337). A
`NaN` RSI compares false against both thresholds. -/
def detect_rsi_extreme (df : List Bar) : Option Setup :=
  if df.length < 20 then none
  else
    let close := df.map Bar.close
    let low := df.map Bar.low
    let high := df.map Bar.high
    let current_price := lastQ close
    let rsi_value := lastO (rsi close 14)
    match lastO (rolling_low low 5), lastO (rolling_high high 5) with
    | some recent_low, some recent_high =>
      let atr_value : Option ℚ :=
        if USE_ATR_BASED_EXITS then lastO (atr df ATR_PERIOD) else none
      let rsi_oversold : Bool :=
        match rsi_value with | some r => decide (r < 30) | none => false
      let rsi_overbought : Bool :=
        match rsi_value with | some r => decide (70 < r) | none => false
      if rsi_oversold ∧ recent_low < current_price then
        let st :=
          match atr_value with
          | some a =>
              if a ≠ 0 then
                (current_price - STOP_LOSS_ATR_MULTIPLE * a,
                 current_price + TAKE_PROFIT_1_ATR_MULTIPLE * a)
              else (recent_low * 0.995, current_price * 1.012)
          | none => (recent_low * 0.995, current_price * 1.012)
        some { type := "RSI_OVERSOLD_LONG", direction := "LONG",
               score := (SETUP_BASE_SCORES "RSI_OVERSOLD_LONG").getD 0.55,
               entry := current_price, stop := st.1, target := st.2,
               reason := "RSI oversold, holding above recent low" }
      else if rsi_overbought ∧ current_price < recent_high then
        let st :=
          match atr_value with
          | some a =>
              if a ≠ 0 then
                (current_price + STOP_LOSS_ATR_MULTIPLE * a,
                 current_price - TAKE_PROFIT_1_ATR_MULTIPLE * a)
              else (recent_high * 1.005, current_price * 0.988)
          | none => (recent_high * 1.005, current_price * 0.988)
        some { type := "RSI_OVERBOUGHT_SHORT", direction := "SHORT",
               score := (SETUP_BASE_SCORES "RSI_OVERBOUGHT_SHORT").getD 0.50,
               entry := current_price, stop := st.1, target := st.2,
               reason := "RSI overbought, holding below recent high" }
      else none
    | _, _ => none

/-- `SetupDetector.detect_range_bounce` (setups.py lines 339-387).
`current_width > avg_width` compares false when `avg_width` is `NaN`
(window reaching into the leading `NaN`s of the width series), so the
evaluator proceeds in that case, exactly as the float code does. -/
def detect_range_bounce (df : List Bar) : Option Setup :=
  if df.length < 50 then none
  else
    let close := df.map Bar.close
    let current_price := lastQ close
    let upper := bb_upper close 20 2
    let middle := sma close 20
    let lower := bb_lower close 20 2
    let width := bb_width close 20 2
    let current_width := lastO width
    let avg_width := lastO (rollingMeanO width 50)
    if (match current_width, avg_width with
        | some c, some a => decide (a < c)
        | _, _ => false) then none
    else
      match lastO lower, lastO upper, lastO middle with
      | some lower_band, some upper_band, some middle_last =>
        if (current_price - lower_band) / lower_band < 0.005 then
          some { type := "RANGE_BOUNCE_LONG", direction := "LONG", score := 0.45,
                 entry := current_price, stop := lower_band * 0.99,
                 target := middle_last, reason := "Price at lower BB in tight range" }
        else if (upper_band - current_price) / upper_band < 0.005 then
          some { type := "RANGE_BOUNCE_SHORT", direction := "SHORT", score := 0.45,
                 entry := current_price, stop := upper_band * 1.01,
                 target := middle_last, reason := "Price at upper BB in tight range" }
        else none
      | _, _, _ => none

/-- `SetupDetector.detect_momentum` (setups.py lines 389-425). -/
def detect_momentum (df : List Bar) : Option Setup :=
  if df.length < 5 then none
  else
    let close := df.map Bar.close
    let current_price := lastQ close
    let c4 := atQ close (close.length - 4)
    let returns_3 := (current_price - c4) / c4
    if 0.02 < returns_3 then
      some { type := "MOMENTUM_LONG", direction := "LONG", score := 0.45,
             entry := current_price, stop := current_price * 0.985,
             target := current_price * 1.015, reason := "Strong momentum up" }
    else if returns_3 < -0.02 then
      some { type := "MOMENTUM_SHORT", direction := "SHORT", score := 0.45,
             entry := current_price, stop := current_price * 1.015,
             target := current_price * 0.985, reason := "Strong momentum down" }
    else none

/-! ### Market filters (`strategy/filters.py`) -/

/-- `MarketFilters.trend_filter_enabled`
(`FEATURES.get("trend_filter", TREND_FILTER_ENABLED)`). -/
def trend_filter_enabled : Bool := FEATURES "trend_filter"

/-- `MarketFilters.volatility_filter_enabled`
(`FEATURES.get("volatility_filter", VOLATILITY_FILTER_ENABLED)`). -/
def volatility_filter_enabled : Bool := FEATURES "volatility_filter"

/-- `MarketFilters.get_trend_state` (filters.py lines 37-65). -/
def get_trend_state (df : List Bar) : String :=
  if df.length < TREND_EMA_SLOW then "ranging"
  else
    let close := df.map Bar.close
    let ema_fast := lastQ (ema close TREND_EMA_FAST)
    let ema_slow := lastQ (ema close TREND_EMA_SLOW)
    let diff_pct := (ema_fast - ema_slow) / ema_slow
    if |diff_pct| < RANGING_ZONE_PCT then "ranging"
    else if TREND_THRESHOLD_PCT < diff_pct then "uptrend"
    else if diff_pct < -TREND_THRESHOLD_PCT then "downtrend"
    else "ranging"

/-- `determine_trend_from_15m` (filters.py lines 179-206): the source
duplicates the trend logic for the 15-minute fallback. -/
def determine_trend_from_15m (df_15m : List Bar) : String :=
  if df_15m.length < TREND_EMA_SLOW then "ranging"
  else
    let close := df_15m.map Bar.close
    let ema_fast := lastQ (ema close TREND_EMA_FAST)
    let ema_slow := lastQ (ema close TREND_EMA_SLOW)
    let diff_pct := (ema_fast - ema_slow) / ema_slow
    if |diff_pct| < RANGING_ZONE_PCT then "ranging"
    else if TREND_THRESHOLD_PCT < diff_pct then "uptrend"
    else if diff_pct < -TREND_THRESHOLD_PCT then "downtrend"
    else "ranging"

/-- `MarketFilters.is_direction_allowed` (filters.py lines 67-82). -/
def is_direction_allowed (direction trend_state : String) : Bool :=
  if !trend_filter_enabled then true
  else (TREND_TRADING_RULES trend_state).contains direction

/-- `MarketFilters.check_volatility` (filters.py lines 84-121). With
the filter enabled and at least 50 bars, line 102 executes
`atr_values = atr(df, 14)`, a call to `utils.indicators.atr`, whose
signature is `atr(high, low, close, period=14)`: the frame is bound to
`high`, `14` to `low`, and `close` has no default, so Python raises
`TypeError` before the percentile logic of lines 104-121 can run.
The raise is modelled as `Except.error`. -/
def check_volatility (df : List Bar) : Except String (Bool × String) :=
  if !volatility_filter_enabled then .ok (true, "Volatility filter disabled")
  else if df.length < 50 then .ok (false, "Insufficient data for volatility check")
  else .error "TypeError: atr() missing 1 required positional argument: close"

/-! ### Detector composition (`SetupDetector.detect_all_setups`) -/

/-- One iteration of the detector loop of `detect_all_setups`
(setups.py lines 78-98): call the evaluator inside `try`, drop the
candidate if the call raised (`except: pass`), returned `None`, scored
below `min_score`, is disabled in `ENABLED_SETUPS`, or is not allowed
by the trend filter; otherwise stamp `symbol` and `trend_state` and
keep it. -/
def detectorContribution (df : List Bar) (symbol trend_state : String)
    (nd : String × (List Bar → Except String (Option Setup))) : List Setup :=
  match nd.2 df with
  | .error _ => []
  | .ok none => []
  | .ok (some setup) =>
      if min_score ≤ setup.score then
        if ENABLED_SETUPS setup.type then
          if FEATURES "trend_filter" then
            if is_direction_allowed setup.direction trend_state then
              [{ setup with symbol := symbol, trend_state := trend_state }]
            else []
          else [{ setup with symbol := symbol, trend_state := trend_state }]
        else []
      else []

/-- The detector loop of `detect_all_setups` over an evaluator list:
the surviving setups in evaluator order. -/
def runDetectors (dets : List (String × (List Bar → Except String (Option Setup))))
    (df : List Bar) (symbol trend_state : String) : List Setup :=
  dets.flatMap (detectorContribution df symbol trend_state)

/-- The fixed evaluator list of `detect_all_setups` (setups.py lines
70-76). The Lean evaluator models are total, so each is wrapped as an
always-`ok` computation; the `Except` layer is where a Python
evaluator could raise. -/
def detectors : List (String × (List Bar → Except String (Option Setup))) :=
  [("EMA_PULLBACK", fun df => .ok (detect_ema_pullback df)),
   ("BREAKOUT", fun df => .ok (detect_breakout df)),
   ("RSI_EXTREME", fun df => .ok (detect_rsi_extreme df)),
   ("RANGE_BOUNCE", fun df => .ok (detect_range_bounce df)),
   ("MOMENTUM", fun df => .ok (detect_momentum df))]

/-- `SetupDetector.detect_all_setups` (setups.py lines 43-100): trend
determination, then the volatility gate (whose raise propagates: it is
called outside the per-evaluator `try`), then the evaluator loop. -/
def detect_all_setups (df : List Bar) (symbol : String)
    (df_1h : Option (List Bar) := none) : Except String (List Setup) :=
  let trend_state :=
    match df_1h with
    | some d1h => if 55 ≤ d1h.length then get_trend_state d1h
                  else determine_trend_from_15m df
    | none => determine_trend_from_15m df
  if FEATURES "volatility_filter" then
    match check_volatility df with
    | .error e => .error e
    | .ok (vol_passed, _) =>
        if !vol_passed then .ok []
        else .ok (runDetectors detectors df symbol trend_state)
  else .ok (runDetectors detectors df symbol trend_state)

/-! ### Position sizing (`risk/position_sizing.py`) -/

/-- The dict returned by `calculate_position`. The source key
`rr_ratio` is rendered as `rr`. -/
structure PositionInfo where
  size_inr : ℚ
  size_units : ℚ
  risk_inr : ℚ
  risk_pct : ℚ
  reward_inr : ℚ
  rr : ℚ
deriving DecidableEq

/-- `calculate_position` (position_sizing.py lines 16-51). Rational
division is total (`x / 0 = 0`), so the `entry = 0` case that would
raise `ZeroDivisionError` in Python is not modelled; every theorem
about this function assumes `0 < entry`. -/
def calculate_position (setup : Setup) : PositionInfo :=
  let position_size_inr := EFFECTIVE_CAPITAL * POSITION_SIZE_PCT
  let position_size_units := position_size_inr / setup.entry
  let risk_pct :=
    if setup.direction = "LONG" then (setup.entry - setup.stop) / setup.entry
    else (setup.stop - setup.entry) / setup.entry
  let reward_pct :=
    if setup.direction = "LONG" then (setup.target - setup.entry) / setup.entry
    else (setup.entry - setup.target) / setup.entry
  let risk_inr := position_size_inr * risk_pct
  let reward_inr := position_size_inr * reward_pct
  { size_inr := position_size_inr
    size_units := position_size_units
    risk_inr := risk_inr
    risk_pct := risk_inr / CAPITAL_INR
    reward_inr := reward_inr
    rr := if 0 < risk_pct then reward_pct / risk_pct else 0 }

/-! ### Backtest engine (`backtest/engine.py`)

The engine is embedded as an explicit state machine. `BacktestEngine`
holds `self.setup_detector` and calls
`self.setup_detector.detect_all_setups(historical, symbol)`; the Lean
`run` takes the detector as a function parameter, so every engine
theorem holds for any detector, the repository's included. Timestamps
are minutes (`pandas.Timestamp` differences in the source are
converted to minutes before use, and `timestamp.date()` becomes
division by the 1440 minutes of a day). -/

/-- `timestamp.date()`: the calendar day of a minute-valued timestamp. -/
def dateOf (t : ℕ) : ℕ := t / 1440

/-- One row of `self.equity_curve` (engine.py lines 184-188). -/
structure EquityPoint where
  timestamp : ℕ
  capital : ℚ
  open_positions : ℕ
deriving DecidableEq

/-- One entry of the `open_positions` dict (engine.py lines 166-171). -/
structure OpenPosition where
  setup : Setup
  position : PositionInfo
  entry_time : ℕ
  entry_price : ℚ
deriving DecidableEq

/-- The `BacktestTrade` dataclass (engine.py lines 23-36). -/
structure BacktestTrade where
  symbol : String
  setup_type : String
  direction : String
  entry_time : ℕ
  entry_price : ℚ
  exit_time : ℕ
  exit_price : ℚ
  exit_reason : String
  position_size_inr : ℚ
  pnl_inr : ℚ
  pnl_pct : ℚ
deriving DecidableEq

/-- The engine's mutable state during `run`. The `symbol_cooldowns`
dict is modelled as a function `String → Option ℕ` (it is only ever
indexed, never iterated). -/
structure RunState where
  capital : ℚ
  trades : List BacktestTrade
  equity_curve : List EquityPoint
  symbol_cooldowns : String → Option ℕ
  last_trade_candle : ℕ
  open_positions : List (String × OpenPosition)
  daily_trades : ℕ
  current_date : Option ℕ

/-- State at the top of `run` (engine.py lines 74-78 and 95-97). -/
def initState (initial_capital : ℚ) : RunState :=
  { capital := initial_capital, trades := [], equity_curve := []
    symbol_cooldowns := fun _ => none, last_trade_candle := 0
    open_positions := [], daily_trades := 0, current_date := none }

/-- The bar-series mapping passed to `run`: symbol to time-indexed
rows, each series already time-ordered as the loader guarantees. -/
def Data := List (String × List (ℕ × Bar))

/-- `symbol in data and timestamp in data[symbol].index`, then the
`.loc` row. -/
def lookupBar (data : Data) (symbol : String) (ts : ℕ) : Option Bar :=
  match List.lookup symbol data with
  | none => none
  | some df => List.lookup ts df

/-- `BacktestEngine._check_exit` (engine.py lines 202-279): stop
breach first, else target, else the 120-minute timeout, else — only
under `force_close` — an `"END"` close; `none` when the position stays
open. -/
def check_exit (position : OpenPosition) (current_bar : Bar) (timestamp : ℕ)
    (force_close : Bool := false) : Option BacktestTrade :=
  let setup := position.setup
  let entry_price := position.entry_price
  let current_price := current_bar.close
  let high := current_bar.high
  let low := current_bar.low
  let r1 : Option (String × ℚ) :=
    if setup.direction = "LONG" then
      if low ≤ setup.stop then some ("STOP", setup.stop)
      else if setup.target ≤ high then some ("TP", setup.target)
      else none
    else
      if setup.stop ≤ high then some ("STOP", setup.stop)
      else if low ≤ setup.target then some ("TP", setup.target)
      else none
  let duration := timestamp - position.entry_time
  let r2 : Option (String × ℚ) :=
    match r1 with
    | some x => some x
    | none => if 120 < duration then some ("TIME", current_price) else none
  let r3 : Option (String × ℚ) :=
    match r2 with
    | some x => some x
    | none => if force_close then some ("END", current_price) else none
  match r3 with
  | none => none
  | some (exit_reason, exit_price) =>
      let pnl_pct :=
        if setup.direction = "LONG" then (exit_price - entry_price) / entry_price
        else (entry_price - exit_price) / entry_price
      let pnl_inr := position.position.size_inr * pnl_pct
      some { symbol := setup.symbol, setup_type := setup.type
             direction := setup.direction, entry_time := position.entry_time
             entry_price := entry_price, exit_time := timestamp
             exit_price := exit_price, exit_reason := exit_reason
             position_size_inr := position.position.size_inr
             pnl_inr := pnl_inr, pnl_pct := pnl_pct }

/-- Dict assignment `self.symbol_cooldowns[symbol] = v`. -/
def updateCooldown (m : String → Option ℕ) (symbol : String) (v : ℕ) :
    String → Option ℕ :=
  fun s => if s = symbol then some v else m s

/-- One iteration of the exit loop of `run` (engine.py lines 113-129):
look up the symbol's bar at the current timestamp, run `_check_exit`,
and on a close append the trade, credit the P&L, drop the position and
set the symbol cooldown — the loss cooldown when `pnl_pct < 0`, the
exit cooldown otherwise. -/
def exitStep (data : Data) (i ts : ℕ) (s : RunState)
    (entry : String × OpenPosition) : RunState :=
  let symbol := entry.1
  match lookupBar data symbol ts with
  | none => s
  | some current_bar =>
    match check_exit entry.2 current_bar ts false with
    | none => s
    | some trade =>
        { s with
          trades := s.trades ++ [trade]
          capital := s.capital + trade.pnl_inr
          open_positions := s.open_positions.filter (fun p => ¬ p.1 = symbol)
          symbol_cooldowns :=
            if COOLDOWN_ENABLED then
              updateCooldown s.symbol_cooldowns symbol
                (i + (if trade.pnl_pct < 0 then COOLDOWN_AFTER_LOSS_CANDLES
                      else COOLDOWN_AFTER_EXIT_CANDLES))
            else s.symbol_cooldowns }

/-- `max(setups, key=lambda x: x["score"])`: the first setup of
maximal score (Python `max` keeps the earliest maximum). -/
def maxByScore : List Setup → Option Setup
  | [] => none
  | x :: xs => some (xs.foldl (fun b y => if b.score < y.score then y else b) x)

/-- The symbol scan of the entry phase of `run` (engine.py lines
133-181), with the `continue` guards in source order: symbol already
open, no bar at this timestamp, global cooldown, symbol cooldown,
fewer than 55 bars of history; then detect, take the best setup, open
the position, bump the daily counter, set the entry cooldown and the
global last-trade marker, and `break` once the position cap is
reached. -/
def scanSymbols (detector : List Bar → String → List Setup) (i ts : ℕ) :
    RunState → List (String × List (ℕ × Bar)) → RunState
  | st, [] => st
  | st, (symbol, df) :: rest =>
    if (st.open_positions.map Prod.fst).contains symbol then
      scanSymbols detector i ts st rest
    else if (List.lookup ts df).isNone then
      scanSymbols detector i ts st rest
    else if COOLDOWN_ENABLED ∧ i < st.last_trade_candle + MIN_CANDLES_BETWEEN_ANY_TRADE then
      scanSymbols detector i ts st rest
    else if COOLDOWN_ENABLED ∧ (match st.symbol_cooldowns symbol with
                                | some c => decide (i < c)
                                | none => false) = true then
      scanSymbols detector i ts st rest
    else
      let idx := df.findIdx (fun p => p.1 == ts)
      if idx < 55 then scanSymbols detector i ts st rest
      else
        let historical := (df.take (idx + 1)).map Prod.snd
        let setups := detector historical symbol
        match maxByScore setups with
        | none => scanSymbols detector i ts st rest
        | some best_setup =>
            let position_info := calculate_position best_setup
            let st' :=
              { st with
                open_positions := st.open_positions ++
                  [(symbol, { setup := best_setup, position := position_info
                              entry_time := ts, entry_price := best_setup.entry })]
                daily_trades := st.daily_trades + 1
                symbol_cooldowns :=
                  if COOLDOWN_ENABLED then
                    updateCooldown st.symbol_cooldowns symbol
                      (i + COOLDOWN_AFTER_ENTRY_CANDLES)
                  else st.symbol_cooldowns
                last_trade_candle :=
                  if COOLDOWN_ENABLED then i else st.last_trade_candle }
            if MAX_POSITIONS ≤ st'.open_positions.length then st'
            else scanSymbols detector i ts st' rest

/-- The entry phase of `run` (engine.py lines 131-181): the symbol
scan runs only below the position cap and the daily-trade cap. -/
def entryScan (detector : List Bar → String → List Setup) (data : Data)
    (i ts : ℕ) (st : RunState) : RunState :=
  if st.open_positions.length < MAX_POSITIONS ∧ st.daily_trades < MAX_DAILY_TRADES then
    scanSymbols detector i ts st data
  else st

/-- One iteration of the main loop of `run` (engine.py lines
102-188): daily-counter reset, exit checks, entry scan, then the
unconditional equity snapshot. -/
def runStep (detector : List Bar → String → List Setup) (data : Data)
    (st : RunState) (p : ℕ × ℕ) : RunState :=
  let i := p.1
  let timestamp := p.2
  let st1 :=
    if st.current_date ≠ some (dateOf timestamp) then
      { st with current_date := some (dateOf timestamp), daily_trades := 0 }
    else st
  let st2 := st1.open_positions.foldl (exitStep data i timestamp) st1
  let st3 := entryScan detector data i timestamp st2
  { st3 with
    equity_curve := st3.equity_curve ++
      [{ timestamp := timestamp, capital := st3.capital
         open_positions := st3.open_positions.length }] }

/-- `all_timestamps` of `run` (engine.py lines 80-93): the sorted
deduplicated union of the symbols' indices, optionally date-filtered. -/
def all_timestamps (data : Data) (start_date end_date : Option ℕ) : List ℕ :=
  let ts0 := (data.flatMap (fun sd => sd.2.map Prod.fst)).dedup
  let ts1 := ts0.insertionSort (· ≤ ·)
  let ts2 := match start_date with
             | some s => ts1.filter (fun t => s ≤ t)
             | none => ts1
  match end_date with
  | some e => ts2.filter (fun t => t ≤ e)
  | none => ts2

/-- The main loop of `run`: fold of `runStep` over the enumerated
timestamps. -/
def runLoop (detector : List Bar → String → List Setup) (data : Data)
    (timestamps : List ℕ) (initial_capital : ℚ) : RunState :=
  timestamps.enum.foldl (runStep detector data) (initState initial_capital)

/-- One iteration of the end-of-data close loop of `run` (engine.py
lines 190-196): close the position with
`_check_exit(..., force_close=True)` against its symbol's final bar
(`data[symbol].iloc[-1]`) at the final global timestamp, append the
trade and credit the P&L — no equity point, cooldown or position-dict
update happens. -/
def forcedCloseStep (data : Data) (final_ts : ℕ) (s : RunState)
    (sp : String × OpenPosition) : RunState :=
  match List.lookup sp.1 data with
  | none => s
  | some df =>
    match df.getLast? with
    | none => s
    | some tb =>
      match check_exit sp.2 tb.2 final_ts true with
      | none => s
      | some trade =>
          { s with trades := s.trades ++ [trade]
                   capital := s.capital + trade.pnl_inr }

/-- The end-of-data pass of `run`: fold of `forcedCloseStep` over the
still-open positions. -/
def forcedClose (data : Data) (final_ts : ℕ) (st : RunState) : RunState :=
  st.open_positions.foldl (forcedCloseStep data final_ts) st

/-- `BacktestEngine.run` (engine.py lines 57-200), returning the final
engine state (the report generation of `_generate_report` reads
`capital`, `trades` and `equity_curve` from it). -/
def run (detector : List Bar → String → List Setup) (data : Data)
    (start_date end_date : Option ℕ := none)
    (initial_capital : ℚ := CAPITAL_INR) : RunState :=
  let ts := all_timestamps data start_date end_date
  let st := runLoop detector data ts initial_capital
  match ts.getLast? with
  | none => st
  | some final_ts => forcedClose data final_ts st

/-! ### Concrete inputs used by witnesses and counterexamples -/

/-- A flat series: `n` identical bars with every price 100. -/
def flatBars (n : ℕ) : List Bar :=
  List.replicate n { open_ := 100, high := 100, low := 100, close := 100, volume := 0 }

/-- Five well-formed bars whose closes are `100,100,100,100,103`: a
3% three-candle move, firing the momentum evaluator. -/
def dfMomentum : List Bar :=
  [{ open_ := 100, high := 103, low := 99, close := 100, volume := 0 },
   { open_ := 100, high := 103, low := 99, close := 100, volume := 0 },
   { open_ := 100, high := 103, low := 99, close := 100, volume := 0 },
   { open_ := 100, high := 103, low := 99, close := 100, volume := 0 },
   { open_ := 100, high := 103, low := 99, close := 103, volume := 0 }]

/-- A LONG setup: entry 100, stop 95, target 110. -/
def setupLongW : Setup :=
  { type := "EMA_PULLBACK_LONG", direction := "LONG", score := 0.65
    entry := 100, stop := 95, target := 110
    reason := "Price near 21 EMA in uptrend", symbol := "BTCUSDT"
    trend_state := "uptrend" }

/-- An open position on `setupLongW`, entered at minute 0. -/
def posLongW : OpenPosition :=
  { setup := setupLongW, position := calculate_position setupLongW
    entry_time := 0, entry_price := 100 }

/-- A bar whose low breaches the stop of `setupLongW` (low 94 ≤ 95). -/
def barStopW : Bar :=
  { open_ := 100, high := 101, low := 94, close := 96, volume := 0 }

/-- A bar hitting neither stop nor target of `setupLongW`. -/
def barQuietW : Bar :=
  { open_ := 100, high := 101, low := 99, close := 101, volume := 0 }

/-- Data mapping for the cooldown witness: one symbol with one bar. -/
def dataExitW : Data := [("BTCUSDT", [(180, barStopW)])]

/-- An evaluator that raises (`Except.error`), for the per-evaluator
failure claim. -/
def badEvaluator : List Bar → Except String (Option Setup) :=
  fun _ => .error "RuntimeError"

/-- A detector that never signals. -/
def detNone : List Bar → String → List Setup := fun _ _ => []

/-- One symbol with a single flat bar at timestamp 0. -/
def dataOneBar : Data :=
  [("X", [(0, { open_ := 100, high := 100, low := 100, close := 100, volume := 0 })])]

/-- The setup opened in the end-of-data scenario: LONG, entry 100,
stop 90, target 120. -/
def setupC9 : Setup :=
  { type := "T", direction := "LONG", score := 0.5
    entry := 100, stop := 90, target := 120, reason := "", symbol := "X"
    trend_state := "" }

/-- 57 15-minute bars for symbol `X`; the final bar closes at 101 so
the forced end-of-data close realizes a nonzero P&L. -/
def dataC9 : Data :=
  [("X", (List.range 57).map (fun j =>
    (15 * j,
     if j = 56 then { open_ := 100, high := 101, low := 100, close := 101, volume := 0 }
     else { open_ := 100, high := 100, low := 100, close := 100, volume := 0 })))]

/-- A detector firing `setupC9` once 56 bars of history exist. -/
def detC9 : List Bar → String → List Setup :=
  fun hist _ => if 56 ≤ hist.length then [setupC9] else []

/-- The trade produced when `posLongW` hits its stop on `barStopW` at
minute 180: a 5% loss on a 2000 INR position. -/
def tradeLossW : BacktestTrade :=
  { symbol := "BTCUSDT", setup_type := "EMA_PULLBACK_LONG", direction := "LONG"
    entry_time := 0, entry_price := 100, exit_time := 180, exit_price := 95
    exit_reason := "STOP", position_size_inr := 2000
    pnl_inr := -100, pnl_pct := -(1/20) }

/-- The trade produced when `posLongW` is force-closed on `barQuietW`
at minute 30: no stop/target/timeout, so an `"END"` close at 101. -/
def tradeEndW : BacktestTrade :=
  { symbol := "BTCUSDT", setup_type := "EMA_PULLBACK_LONG", direction := "LONG"
    entry_time := 0, entry_price := 100, exit_time := 30, exit_price := 101
    exit_reason := "END", position_size_inr := 2000
    pnl_inr := 20, pnl_pct := 1/100 }

/-- The Setup produced by the momentum evaluator on `dfMomentum`. -/
def setupMomentumW : Setup :=
  { type := "MOMENTUM_LONG", direction := "LONG", score := 0.45
    entry := 103, stop := 103 * 0.985, target := 103 * 1.015
    reason := "Strong momentum up" }

/-- The reason/exit-price decision chain of `_check_exit`, factored
out of `check_exit` for the proofs: stop, else target, else timeout,
else `"END"` under `force_close`. -/
def exitDecision (position : OpenPosition) (bar : Bar) (ts : ℕ) (force : Bool) :
    Option (String × ℚ) :=
  let setup := position.setup
  let r1 : Option (String × ℚ) :=
    if setup.direction = "LONG" then
      if bar.low ≤ setup.stop then some ("STOP", setup.stop)
      else if setup.target ≤ bar.high then some ("TP", setup.target)
      else none
    else
      if setup.stop ≤ bar.high then some ("STOP", setup.stop)
      else if bar.low ≤ setup.target then some ("TP", setup.target)
      else none
  let r2 : Option (String × ℚ) :=
    match r1 with
    | some x => some x
    | none => if 120 < ts - position.entry_time then some ("TIME", bar.close) else none
  match r2 with
  | some x => some x
  | none => if force then some ("END", bar.close) else none

/-- The closed trade `_check_exit` builds from a reason/price pair. -/
def mkExitTrade (position : OpenPosition) (ts : ℕ) (rp : String × ℚ) : BacktestTrade :=
  let pnl_pct :=
    if position.setup.direction = "LONG" then
      (rp.2 - position.entry_price) / position.entry_price
    else (position.entry_price - rp.2) / position.entry_price
  { symbol := position.setup.symbol, setup_type := position.setup.type
    direction := position.setup.direction, entry_time := position.entry_time
    entry_price := position.entry_price, exit_time := ts, exit_price := rp.2
    exit_reason := rp.1, position_size_inr := position.position.size_inr
    pnl_inr := position.position.size_inr * pnl_pct, pnl_pct := pnl_pct }

/-! ### Theorems -/

/-- Claim C6: for every setup with entry price > 0, `calculate_position`
returns notional = capital × leverage × position-size fraction, units =
notional / entry, directional risk/reward percentages (LONG: risk =
(entry − stop)/entry, reward = (target − entry)/entry; SHORT mirrored),
currency risk/reward = notional × the respective percentage, and
risk-reward ratio = reward_pct / risk_pct, or 0 when risk_pct is zero —
never raising on a zero-risk setup. -/
theorem c6_position_sizer (s : Setup) (hentry : 0 < s.entry) :
    let p := calculate_position s
    let risk_pct := if s.direction = "LONG" then (s.entry - s.stop) / s.entry
                    else (s.stop - s.entry) / s.entry
    let reward_pct := if s.direction = "LONG" then (s.target - s.entry) / s.entry
                      else (s.entry - s.target) / s.entry
    p.size_inr = CAPITAL_INR * LEVERAGE * POSITION_SIZE_PCT ∧
    p.size_units = p.size_inr / s.entry ∧
    p.risk_inr = p.size_inr * risk_pct ∧
    p.reward_inr = p.size_inr * reward_pct ∧
    p.rr = (if 0 < risk_pct then reward_pct / risk_pct else 0) ∧
    (risk_pct = 0 → p.rr = 0) := by
  refine ⟨?_, ?_, ?_, ?_, ?_, ?_⟩ <;>
    simp [calculate_position, EFFECTIVE_CAPITAL, mul_assoc]
  intro hz
  simp [hz]

/-- Witness for C6 at the concrete setup `setupLongW`. -/
theorem c6_witness :
    0 < setupLongW.entry ∧
    (let p := calculate_position setupLongW
     let risk_pct := if setupLongW.direction = "LONG"
                     then (setupLongW.entry - setupLongW.stop) / setupLongW.entry
                     else (setupLongW.stop - setupLongW.entry) / setupLongW.entry
     let reward_pct := if setupLongW.direction = "LONG"
                       then (setupLongW.target - setupLongW.entry) / setupLongW.entry
                       else (setupLongW.entry - setupLongW.target) / setupLongW.entry
     p.size_inr = CAPITAL_INR * LEVERAGE * POSITION_SIZE_PCT ∧
     p.size_units = p.size_inr / setupLongW.entry ∧
     p.risk_inr = p.size_inr * risk_pct ∧
     p.reward_inr = p.size_inr * reward_pct ∧
     p.rr = (if 0 < risk_pct then reward_pct / risk_pct else 0) ∧
     (risk_pct = 0 → p.rr = 0)) :=
  ⟨by decide, c6_position_sizer setupLongW (by decide)⟩

/-- Claim C4 (code bug): on a flat series of 100 identical-close bars
with the volatility filter enabled, `check_volatility` does not return
`(False, reason)` — it raises `TypeError`, because filters.py line 102
calls `atr(df, 14)` against the signature
`atr(high, low, close, period=14)`; `detect_all_setups` calls it
outside the per-evaluator `try` and propagates the raise instead of
returning zero setups. -/
theorem c4_volatility_crash :
    check_volatility (flatBars 100) =
      .error "TypeError: atr() missing 1 required positional argument: close" ∧
    detect_all_setups (flatBars 100) "BTCUSDT" none =
      .error "TypeError: atr() missing 1 required positional argument: close" := by
  constructor <;> rfl

/-- Claim C5: if one evaluator in the list raises during evaluation,
`runDetectors` (the detector loop of `detect_all_setups`) returns
exactly what the remaining evaluators produce — the failing evaluator
contributes no signal and never blocks the others. -/
theorem c5_evaluator_failure (df : List Bar) (symbol trend : String)
    (l₁ l₂ : List (String × (List Bar → Except String (Option Setup))))
    (name : String) (f : List Bar → Except String (Option Setup)) (e : String)
    (hf : f df = .error e) :
    runDetectors (l₁ ++ (name, f) :: l₂) df symbol trend =
      runDetectors (l₁ ++ l₂) df symbol trend ∧
    detectorContribution df symbol trend (name, f) = [] := by
  have hc : detectorContribution df symbol trend (name, f) = [] := by
    simp [detectorContribution, hf]
  refine ⟨?_, hc⟩
  simp [runDetectors, List.flatMap_append, List.flatMap_cons, hc]

/-- Witness for C5: an always-raising evaluator placed before the
repository's evaluator list changes nothing. -/
theorem c5_witness :
    runDetectors (("BAD", badEvaluator) :: detectors) (flatBars 5) "S" "ranging" =
      runDetectors detectors (flatBars 5) "S" "ranging" ∧
    detectorContribution (flatBars 5) "S" "ranging" ("BAD", badEvaluator) = [] :=
  c5_evaluator_failure (flatBars 5) "S" "ranging" [] detectors "BAD" badEvaluator
    "RuntimeError" rfl

/-- Claim C7: when a position closes at step `i` with negative P&L
(cooldown enabled), the exit handler sets the symbol's cooldown to
`i + COOLDOWN_AFTER_LOSS_CANDLES`, which is strictly larger than the
normal post-exit cooldown. -/
theorem c7_loss_cooldown (data : Data) (i ts : ℕ) (s : RunState)
    (symbol : String) (pos : OpenPosition) (bar : Bar) (trade : BacktestTrade)
    (hbar : lookupBar data symbol ts = some bar)
    (hclose : check_exit pos bar ts false = some trade)
    (hloss : trade.pnl_pct < 0) :
    (exitStep data i ts s (symbol, pos)).symbol_cooldowns symbol =
      some (i + COOLDOWN_AFTER_LOSS_CANDLES) ∧
    COOLDOWN_AFTER_EXIT_CANDLES < COOLDOWN_AFTER_LOSS_CANDLES := by
  refine ⟨?_, by decide⟩
  simp [exitStep, hbar, hclose, hloss, COOLDOWN_ENABLED, updateCooldown]

/-- Witness for C7: the stop-loss exit of `posLongW` at step 12 is a
loss and sets the symbol's available-again step to 12 + 6. -/
theorem c7_witness :
    (exitStep dataExitW 12 180 (initState CAPITAL_INR)
        ("BTCUSDT", posLongW)).symbol_cooldowns "BTCUSDT" =
      some (12 + COOLDOWN_AFTER_LOSS_CANDLES) ∧
    COOLDOWN_AFTER_EXIT_CANDLES < COOLDOWN_AFTER_LOSS_CANDLES :=
  c7_loss_cooldown dataExitW 12 180 (initState CAPITAL_INR) "BTCUSDT" posLongW
    barStopW tradeLossW (by decide) (by with_unfolding_all decide)
    (by with_unfolding_all decide)

lemma check_exit_eq (position : OpenPosition) (bar : Bar) (ts : ℕ) (force : Bool) :
    check_exit position bar ts force =
      (exitDecision position bar ts force).map (mkExitTrade position ts) := by
  unfold check_exit exitDecision mkExitTrade
  by_cases hd : position.setup.direction = "LONG" <;>
    simp [hd, Option.map] <;>
    rcases h1 : (if bar.low ≤ position.setup.stop then some ("STOP", position.setup.stop)
      else if position.setup.target ≤ bar.high then some ("TP", position.setup.target)
      else none : Option (String × ℚ)) with _ | x <;>
    rcases h2 : (if position.setup.stop ≤ bar.high then some ("STOP", position.setup.stop)
      else if bar.low ≤ position.setup.target then some ("TP", position.setup.target)
      else none : Option (String × ℚ)) with _ | y <;>
    split_ifs <;> simp_all

lemma mkExitTrade_reason (position : OpenPosition) (ts : ℕ) (rp : String × ℚ) :
    (mkExitTrade position ts rp).exit_reason = rp.1 := rfl

lemma exitDecision_reason_mem (position : OpenPosition) (bar : Bar) (ts : ℕ)
    (force : Bool) (rp : String × ℚ)
    (h : exitDecision position bar ts force = some rp) :
    rp.1 = "TP" ∨ rp.1 = "STOP" ∨ rp.1 = "TIME" ∨ rp.1 = "END" := by
  unfold exitDecision at h
  by_cases hd : position.setup.direction = "LONG" <;>
    by_cases h1 : bar.low ≤ position.setup.stop <;>
    by_cases h2 : position.setup.target ≤ bar.high <;>
    by_cases h3 : position.setup.stop ≤ bar.high <;>
    by_cases h4 : bar.low ≤ position.setup.target <;>
    by_cases h5 : 120 < ts - position.entry_time <;>
    by_cases h6 : force = true <;>
    simp_all <;> simp [← h]

lemma exitDecision_long_stop (position : OpenPosition) (bar : Bar) (ts : ℕ)
    (force : Bool) (hd : position.setup.direction = "LONG")
    (h1 : bar.low ≤ position.setup.stop) :
    exitDecision position bar ts force = some ("STOP", position.setup.stop) := by
  simp [exitDecision, hd, h1]

lemma exitDecision_short_stop (position : OpenPosition) (bar : Bar) (ts : ℕ)
    (force : Bool) (hd : ¬ position.setup.direction = "LONG")
    (h1 : position.setup.stop ≤ bar.high) :
    exitDecision position bar ts force = some ("STOP", position.setup.stop) := by
  simp [exitDecision, hd, h1]

lemma exitDecision_long_tp (position : OpenPosition) (bar : Bar) (ts : ℕ)
    (force : Bool) (hd : position.setup.direction = "LONG")
    (h1 : ¬ bar.low ≤ position.setup.stop) (h2 : position.setup.target ≤ bar.high) :
    exitDecision position bar ts force = some ("TP", position.setup.target) := by
  simp [exitDecision, hd, h1, h2]

lemma exitDecision_short_tp (position : OpenPosition) (bar : Bar) (ts : ℕ)
    (force : Bool) (hd : ¬ position.setup.direction = "LONG")
    (h1 : ¬ position.setup.stop ≤ bar.high) (h2 : bar.low ≤ position.setup.target) :
    exitDecision position bar ts force = some ("TP", position.setup.target) := by
  simp [exitDecision, hd, h1, h2]

lemma exitDecision_long_time (position : OpenPosition) (bar : Bar) (ts : ℕ)
    (force : Bool) (hd : position.setup.direction = "LONG")
    (h1 : ¬ bar.low ≤ position.setup.stop) (h2 : ¬ position.setup.target ≤ bar.high)
    (h5 : 120 < ts - position.entry_time) :
    exitDecision position bar ts force = some ("TIME", bar.close) := by
  simp [exitDecision, hd, h1, h2, h5]

lemma exitDecision_short_time (position : OpenPosition) (bar : Bar) (ts : ℕ)
    (force : Bool) (hd : ¬ position.setup.direction = "LONG")
    (h1 : ¬ position.setup.stop ≤ bar.high) (h2 : ¬ bar.low ≤ position.setup.target)
    (h5 : 120 < ts - position.entry_time) :
    exitDecision position bar ts force = some ("TIME", bar.close) := by
  simp [exitDecision, hd, h1, h2, h5]

lemma exitDecision_time_inv (position : OpenPosition) (bar : Bar) (ts : ℕ)
    (force : Bool) (rp : String × ℚ)
    (h : exitDecision position bar ts force = some rp) (ht : rp.1 = "TIME") :
    120 < ts - position.entry_time ∧
    (position.setup.direction = "LONG" →
      ¬ bar.low ≤ position.setup.stop ∧ ¬ position.setup.target ≤ bar.high) ∧
    (¬ position.setup.direction = "LONG" →
      ¬ position.setup.stop ≤ bar.high ∧ ¬ bar.low ≤ position.setup.target) := by
  unfold exitDecision at h
  by_cases hd : position.setup.direction = "LONG" <;>
    by_cases h1 : bar.low ≤ position.setup.stop <;>
    by_cases h2 : position.setup.target ≤ bar.high <;>
    by_cases h3 : position.setup.stop ≤ bar.high <;>
    by_cases h4 : bar.low ≤ position.setup.target <;>
    by_cases h5 : 120 < ts - position.entry_time <;>
    by_cases h6 : force = true <;>
    simp_all <;> (rw [← h] at ht; simp_all)

lemma exitDecision_force_isSome (position : OpenPosition) (bar : Bar) (ts : ℕ) :
    (exitDecision position bar ts true).isSome = true := by
  unfold exitDecision
  by_cases hd : position.setup.direction = "LONG" <;> simp [hd] <;> split_ifs <;> simp

lemma exitDecision_end_iff (position : OpenPosition) (bar : Bar) (ts : ℕ)
    (rp : String × ℚ) (h : exitDecision position bar ts true = some rp) :
    (rp.1 = "END" ↔
      (position.setup.direction = "LONG" →
        ¬ bar.low ≤ position.setup.stop ∧ ¬ position.setup.target ≤ bar.high) ∧
      (¬ position.setup.direction = "LONG" →
        ¬ position.setup.stop ≤ bar.high ∧ ¬ bar.low ≤ position.setup.target) ∧
      ¬ 120 < ts - position.entry_time) := by
  unfold exitDecision at h
  by_cases hd : position.setup.direction = "LONG" <;>
    by_cases h1 : bar.low ≤ position.setup.stop <;>
    by_cases h2 : position.setup.target ≤ bar.high <;>
    by_cases h3 : position.setup.stop ≤ bar.high <;>
    by_cases h4 : bar.low ≤ position.setup.target <;>
    by_cases h5 : 120 < ts - position.entry_time <;>
    simp_all <;> simp [← h]

/-- Claim C2: exit evaluation precedence of `_check_exit`. A stop
breach (LONG: low ≤ stop; SHORT: high ≥ stop) is reported first; a
target hit (LONG: high ≥ target; SHORT: low ≤ target) only when the
stop did not trigger; a `"TIME"` exit only when neither triggered and
the position has been held for more than 120 minutes; and every
produced trade carries one of the reasons TP/STOP/TIME/END. -/
theorem c2_exit_rules (position : OpenPosition) (bar : Bar) (ts : ℕ) (force : Bool) :
    (∀ t, check_exit position bar ts force = some t →
      t.exit_reason = "TP" ∨ t.exit_reason = "STOP" ∨ t.exit_reason = "TIME" ∨
        t.exit_reason = "END") ∧
    (position.setup.direction = "LONG" → bar.low ≤ position.setup.stop →
      (check_exit position bar ts force).map BacktestTrade.exit_reason = some "STOP") ∧
    (¬ position.setup.direction = "LONG" → position.setup.stop ≤ bar.high →
      (check_exit position bar ts force).map BacktestTrade.exit_reason = some "STOP") ∧
    (position.setup.direction = "LONG" → ¬ bar.low ≤ position.setup.stop →
      position.setup.target ≤ bar.high →
      (check_exit position bar ts force).map BacktestTrade.exit_reason = some "TP") ∧
    (¬ position.setup.direction = "LONG" → ¬ position.setup.stop ≤ bar.high →
      bar.low ≤ position.setup.target →
      (check_exit position bar ts force).map BacktestTrade.exit_reason = some "TP") ∧
    (∀ t, check_exit position bar ts force = some t → t.exit_reason = "TIME" →
      120 < ts - position.entry_time ∧
      (position.setup.direction = "LONG" →
        ¬ bar.low ≤ position.setup.stop ∧ ¬ position.setup.target ≤ bar.high) ∧
      (¬ position.setup.direction = "LONG" →
        ¬ position.setup.stop ≤ bar.high ∧ ¬ bar.low ≤ position.setup.target)) ∧
    (120 < ts - position.entry_time →
      (position.setup.direction = "LONG" → ¬ bar.low ≤ position.setup.stop →
        ¬ position.setup.target ≤ bar.high →
        (check_exit position bar ts force).map BacktestTrade.exit_reason = some "TIME") ∧
      (¬ position.setup.direction = "LONG" → ¬ position.setup.stop ≤ bar.high →
        ¬ bar.low ≤ position.setup.target →
        (check_exit position bar ts force).map BacktestTrade.exit_reason = some "TIME")) := by
  refine ⟨?_, ?_, ?_, ?_, ?_, ?_, ?_⟩
  · intro t h
    rw [check_exit_eq] at h
    obtain ⟨rp, hrp, hmk⟩ := Option.map_eq_some'.mp h
    subst hmk
    rw [mkExitTrade_reason]
    exact exitDecision_reason_mem position bar ts force rp hrp
  · intro hd h1
    rw [check_exit_eq, exitDecision_long_stop position bar ts force hd h1]
    rfl
  · intro hd h1
    rw [check_exit_eq, exitDecision_short_stop position bar ts force hd h1]
    rfl
  · intro hd h1 h2
    rw [check_exit_eq, exitDecision_long_tp position bar ts force hd h1 h2]
    rfl
  · intro hd h1 h2
    rw [check_exit_eq, exitDecision_short_tp position bar ts force hd h1 h2]
    rfl
  · intro t h ht
    rw [check_exit_eq] at h
    obtain ⟨rp, hrp, hmk⟩ := Option.map_eq_some'.mp h
    subst hmk
    rw [mkExitTrade_reason] at ht
    exact exitDecision_time_inv position bar ts force rp hrp ht
  · intro h5
    constructor
    · intro hd h1 h2
      rw [check_exit_eq, exitDecision_long_time position bar ts force hd h1 h2 h5]
      rfl
    · intro hd h1 h2
      rw [check_exit_eq, exitDecision_short_time position bar ts force hd h1 h2 h5]
      rfl

/-- Witness for C2: a stop breach on `barStopW` reports `"STOP"`. -/
theorem c2_witness :
    (check_exit posLongW barStopW 30 false).map BacktestTrade.exit_reason =
      some "STOP" :=
  (c2_exit_rules posLongW barStopW 30 false).2.1 (by decide) (by decide)

/-- Counterexample to claim C3: a forced close (`force_close=True`)
against a final bar whose low breaches the stop reports `"STOP"`, not
the unconditional `"END"` the claim asserts. -/
theorem c3_counterexample :
    (check_exit posLongW barStopW 30 true).map BacktestTrade.exit_reason =
      some "STOP" ∧ ("STOP" : String) ≠ "END" := by
  constructor
  · with_unfolding_all decide
  · decide

/-- Claim C3 (amended): the end-of-data pass force-closes every
still-open position against its symbol's final bar — `_check_exit`
with `force_close=True` always closes — but the exit reason is `"END"`
only when no stop breach, no target hit and no 120-minute timeout
applies on that final bar; otherwise the forced close reports
STOP/TP/TIME. -/
theorem c3_amended_forced_close (position : OpenPosition) (bar : Bar) (ts : ℕ) :
    (check_exit position bar ts true).isSome = true ∧
    (∀ t, check_exit position bar ts true = some t →
      (t.exit_reason = "END" ↔
        (position.setup.direction = "LONG" →
          ¬ bar.low ≤ position.setup.stop ∧ ¬ position.setup.target ≤ bar.high) ∧
        (¬ position.setup.direction = "LONG" →
          ¬ position.setup.stop ≤ bar.high ∧ ¬ bar.low ≤ position.setup.target) ∧
        ¬ 120 < ts - position.entry_time)) := by
  constructor
  · rw [check_exit_eq, Option.isSome_map']
    exact exitDecision_force_isSome position bar ts
  · intro t h
    rw [check_exit_eq] at h
    obtain ⟨rp, hrp, hmk⟩ := Option.map_eq_some'.mp h
    subst hmk
    rw [mkExitTrade_reason]
    exact exitDecision_end_iff position bar ts rp hrp

/-- Witness for C3 (amended) at a quiet final bar: the forced close
exists and reports `"END"`. -/
theorem c3_witness :
    (check_exit posLongW barQuietW 30 true).isSome = true ∧
    (tradeEndW.exit_reason = "END" ↔
      (posLongW.setup.direction = "LONG" →
        ¬ barQuietW.low ≤ posLongW.setup.stop ∧
          ¬ posLongW.setup.target ≤ barQuietW.high) ∧
      (¬ posLongW.setup.direction = "LONG" →
        ¬ posLongW.setup.stop ≤ barQuietW.high ∧
          ¬ barQuietW.low ≤ posLongW.setup.target) ∧
      ¬ 120 < 30 - posLongW.entry_time) :=
  ⟨(c3_amended_forced_close posLongW barQuietW 30).1,
   (c3_amended_forced_close posLongW barQuietW 30).2 tradeEndW
     (by with_unfolding_all decide)⟩

lemma exitStep_equity (data : Data) (i ts : ℕ) (s : RunState)
    (e : String × OpenPosition) :
    (exitStep data i ts s e).equity_curve = s.equity_curve := by
  unfold exitStep
  dsimp only
  cases hb : lookupBar data e.1 ts with
  | none => rfl
  | some bar =>
    dsimp only
    cases hc : check_exit e.2 bar ts false with
    | none => rfl
    | some t => rfl

lemma exitStep_open_le (data : Data) (i ts : ℕ) (s : RunState)
    (e : String × OpenPosition) :
    (exitStep data i ts s e).open_positions.length ≤ s.open_positions.length := by
  unfold exitStep
  dsimp only
  cases hb : lookupBar data e.1 ts with
  | none => exact le_refl _
  | some bar =>
    dsimp only
    cases hc : check_exit e.2 bar ts false with
    | none => exact le_refl _
    | some t => exact List.length_filter_le _ _

lemma foldl_exitStep_equity (data : Data) (i ts : ℕ) :
    ∀ (l : List (String × OpenPosition)) (s : RunState),
      (l.foldl (exitStep data i ts) s).equity_curve = s.equity_curve
  | [], _ => rfl
  | e :: rest, s => by
      rw [List.foldl_cons, foldl_exitStep_equity data i ts rest, exitStep_equity]

lemma foldl_exitStep_open_le (data : Data) (i ts : ℕ) :
    ∀ (l : List (String × OpenPosition)) (s : RunState),
      (l.foldl (exitStep data i ts) s).open_positions.length ≤
        s.open_positions.length
  | [], _ => le_refl _
  | e :: rest, s => by
      rw [List.foldl_cons]
      exact le_trans (foldl_exitStep_open_le data i ts rest _)
        (exitStep_open_le data i ts s e)

lemma scanSymbols_equity (det : List Bar → String → List Setup) (i ts : ℕ) :
    ∀ (l : List (String × List (ℕ × Bar))) (st : RunState),
      (scanSymbols det i ts st l).equity_curve = st.equity_curve
  | [], _ => rfl
  | (sym, df) :: rest, st => by
      unfold scanSymbols
      dsimp only
      split_ifs <;> try exact scanSymbols_equity det i ts rest st
      all_goals
        split
      all_goals try exact scanSymbols_equity det i ts rest st
      all_goals split_ifs
      all_goals try rfl
      all_goals exact scanSymbols_equity det i ts rest _

lemma scanSymbols_cap (det : List Bar → String → List Setup) (i ts : ℕ) :
    ∀ (l : List (String × List (ℕ × Bar))) (st : RunState),
      st.open_positions.length < MAX_POSITIONS →
      (scanSymbols det i ts st l).open_positions.length ≤ MAX_POSITIONS
  | [], st, h => le_of_lt h
  | (sym, df) :: rest, st, h => by
      unfold scanSymbols
      dsimp only
      split_ifs <;> try exact scanSymbols_cap det i ts rest st h
      all_goals split
      all_goals try exact scanSymbols_cap det i ts rest st h
      all_goals split_ifs with hcap
      all_goals try (refine scanSymbols_cap det i ts rest _ ?_; simpa using lt_of_not_le hcap)
      all_goals simpa using Nat.succ_le_of_lt h

lemma scanSymbols_global_cooldown (det : List Bar → String → List Setup)
    (i ts : ℕ) :
    ∀ (l : List (String × List (ℕ × Bar))) (st : RunState),
      i < st.last_trade_candle + MIN_CANDLES_BETWEEN_ANY_TRADE →
      scanSymbols det i ts st l = st
  | [], _, _ => rfl
  | (sym, df) :: rest, st, h => by
      unfold scanSymbols
      dsimp only
      split_ifs with g1 g2 g3 <;>
        first
        | exact scanSymbols_global_cooldown det i ts rest st h
        | exact absurd ⟨rfl, h⟩ g3

lemma entryScan_equity (det : List Bar → String → List Setup) (data : Data)
    (i ts : ℕ) (st : RunState) :
    (entryScan det data i ts st).equity_curve = st.equity_curve := by
  unfold entryScan
  split_ifs
  · exact scanSymbols_equity det i ts data st
  · rfl

lemma entryScan_cap (det : List Bar → String → List Setup) (data : Data)
    (i ts : ℕ) (st : RunState) (h : st.open_positions.length ≤ MAX_POSITIONS) :
    (entryScan det data i ts st).open_positions.length ≤ MAX_POSITIONS := by
  unfold entryScan
  split_ifs with hg
  · exact scanSymbols_cap det i ts data st hg.1
  · exact h

lemma entryScan_noop (det : List Bar → String → List Setup) (data : Data)
    (i ts : ℕ) (st : RunState) (h : MAX_POSITIONS ≤ st.open_positions.length) :
    entryScan det data i ts st = st := by
  unfold entryScan
  split_ifs with hg
  · exact absurd hg.1 (not_lt.mpr h)
  · rfl

lemma runStep_equity_suffix (det : List Bar → String → List Setup) (data : Data)
    (st : RunState) (p : ℕ × ℕ) :
    ∃ pt : EquityPoint,
      (runStep det data st p).equity_curve = st.equity_curve ++ [pt] := by
  unfold runStep
  dsimp only
  rw [entryScan_equity, foldl_exitStep_equity]
  split_ifs <;> exact ⟨_, rfl⟩

lemma runStep_cap (det : List Bar → String → List Setup) (data : Data)
    (st : RunState) (p : ℕ × ℕ)
    (h : st.open_positions.length ≤ MAX_POSITIONS) :
    (runStep det data st p).open_positions.length ≤ MAX_POSITIONS := by
  unfold runStep
  dsimp only
  apply entryScan_cap
  refine le_trans (foldl_exitStep_open_le data p.1 p.2 _ _) ?_
  split_ifs <;> simpa using h

lemma runStep_equity_mem (det : List Bar → String → List Setup) (data : Data)
    (st : RunState) (p : ℕ × ℕ) (e : EquityPoint)
    (he : e ∈ (runStep det data st p).equity_curve) :
    e ∈ st.equity_curve ∨
      e.open_positions = (runStep det data st p).open_positions.length := by
  unfold runStep at he ⊢
  dsimp only at he ⊢
  rw [entryScan_equity, foldl_exitStep_equity] at he
  rcases List.mem_append.mp he with h | h
  · left
    split_ifs at h <;> simpa using h
  · right
    rw [List.mem_singleton] at h
    subst h
    rfl

lemma entryScan_early (det : List Bar → String → List Setup) (data : Data)
    (i ts : ℕ) (st : RunState) (hi : i < MIN_CANDLES_BETWEEN_ANY_TRADE) :
    entryScan det data i ts st = st := by
  unfold entryScan
  split_ifs with hg
  · exact scanSymbols_global_cooldown det i ts data st
      (lt_of_lt_of_le hi (Nat.le_add_left _ _))
  · rfl

lemma runStep_early (det : List Bar → String → List Setup) (data : Data)
    (st : RunState) (p : ℕ × ℕ)
    (hp : p.1 < MIN_CANDLES_BETWEEN_ANY_TRADE)
    (hopen : st.open_positions = []) :
    (runStep det data st p).open_positions = [] ∧
    ∃ pt : EquityPoint,
      (runStep det data st p).equity_curve = st.equity_curve ++ [pt] ∧
      pt.open_positions = 0 := by
  unfold runStep
  dsimp only
  have hopen1 : (if st.current_date ≠ some (dateOf p.2) then
      { st with current_date := some (dateOf p.2), daily_trades := 0 }
    else st).open_positions = [] := by
    split_ifs <;> exact hopen
  have hq1 : (if st.current_date ≠ some (dateOf p.2) then
      { st with current_date := some (dateOf p.2), daily_trades := 0 }
    else st).equity_curve = st.equity_curve := by
    split_ifs <;> rfl
  rw [hopen1, List.foldl_nil, entryScan_early det data p.1 p.2 _ hp]
  refine ⟨?_, ⟨⟨p.2, st.capital, 0⟩, ?_, rfl⟩⟩
  · split_ifs <;> exact hopen
  · split_ifs <;> simp [hopen]

lemma forcedCloseStep_frame (data : Data) (fts : ℕ) (s : RunState)
    (sp : String × OpenPosition) :
    (forcedCloseStep data fts s sp).equity_curve = s.equity_curve ∧
    (forcedCloseStep data fts s sp).open_positions = s.open_positions ∧
    ∃ newT : List BacktestTrade,
      (forcedCloseStep data fts s sp).trades = s.trades ++ newT ∧
      (forcedCloseStep data fts s sp).capital =
        s.capital + (newT.map BacktestTrade.pnl_inr).sum := by
  unfold forcedCloseStep
  cases h1 : List.lookup sp.1 data with
  | none => exact ⟨rfl, rfl, [], by simp, by simp⟩
  | some df =>
    dsimp only
    cases h2 : df.getLast? with
    | none => exact ⟨rfl, rfl, [], by simp, by simp⟩
    | some tb =>
      dsimp only
      cases h3 : check_exit sp.2 tb.2 fts true with
      | none => exact ⟨rfl, rfl, [], by simp, by simp⟩
      | some trade => exact ⟨rfl, rfl, [trade], rfl, by simp⟩

lemma foldl_forcedCloseStep (data : Data) (fts : ℕ) :
    ∀ (l : List (String × OpenPosition)) (s : RunState),
      (l.foldl (forcedCloseStep data fts) s).equity_curve = s.equity_curve ∧
      (l.foldl (forcedCloseStep data fts) s).open_positions = s.open_positions ∧
      ∃ newT : List BacktestTrade,
        (l.foldl (forcedCloseStep data fts) s).trades = s.trades ++ newT ∧
        (l.foldl (forcedCloseStep data fts) s).capital =
          s.capital + (newT.map BacktestTrade.pnl_inr).sum
  | [], s => ⟨rfl, rfl, [], by simp, by simp⟩
  | e :: rest, s => by
      rw [List.foldl_cons]
      obtain ⟨hq, ho, t1, ht1, hc1⟩ := forcedCloseStep_frame data fts s e
      obtain ⟨hq2, ho2, t2, ht2, hc2⟩ :=
        foldl_forcedCloseStep data fts rest (forcedCloseStep data fts s e)
      refine ⟨hq2.trans hq, ho2.trans ho, t1 ++ t2, ?_, ?_⟩
      · rw [ht2, ht1, List.append_assoc]
      · rw [hc2, hc1]
        simp [add_assoc]

lemma forcedClose_frame (data : Data) (fts : ℕ) (st : RunState) :
    (forcedClose data fts st).equity_curve = st.equity_curve ∧
    ∃ newT : List BacktestTrade,
      (forcedClose data fts st).trades = st.trades ++ newT ∧
      (forcedClose data fts st).capital =
        st.capital + (newT.map BacktestTrade.pnl_inr).sum := by
  obtain ⟨hq, _, t, ht, hc⟩ := foldl_forcedCloseStep data fts st.open_positions st
  exact ⟨hq, t, ht, hc⟩

lemma run_equity_eq_runLoop (detector : List Bar → String → List Setup)
    (data : Data) (sd ed : Option ℕ) (cap : ℚ) :
    (run detector data sd ed cap).equity_curve =
      (runLoop detector data (all_timestamps data sd ed) cap).equity_curve := by
  unfold run
  dsimp only
  cases h : (all_timestamps data sd ed).getLast? with
  | none => rfl
  | some fts =>
    dsimp only
    exact (forcedClose_frame data fts _).1

lemma foldl_runStep_inv (det : List Bar → String → List Setup) (data : Data) :
    ∀ (l : List (ℕ × ℕ)) (s : RunState),
      s.open_positions.length ≤ MAX_POSITIONS →
      (∀ e ∈ s.equity_curve, e.open_positions ≤ MAX_POSITIONS) →
      (l.foldl (runStep det data) s).open_positions.length ≤ MAX_POSITIONS ∧
      ∀ e ∈ (l.foldl (runStep det data) s).equity_curve,
        e.open_positions ≤ MAX_POSITIONS
  | [], _, h1, h2 => ⟨h1, h2⟩
  | p :: rest, s, h1, h2 => by
      rw [List.foldl_cons]
      refine foldl_runStep_inv det data rest _ (runStep_cap det data s p h1) ?_
      intro e he
      rcases runStep_equity_mem det data s p e he with h | h
      · exact h2 e h
      · rw [h]
        exact runStep_cap det data s p h1

lemma foldl_runStep_equity_suffix (det : List Bar → String → List Setup)
    (data : Data) :
    ∀ (l : List (ℕ × ℕ)) (s : RunState),
      ∃ suf, (l.foldl (runStep det data) s).equity_curve = s.equity_curve ++ suf
  | [], s => ⟨[], by simp⟩
  | p :: rest, s => by
      rw [List.foldl_cons]
      obtain ⟨pt, hpt⟩ := runStep_equity_suffix det data s p
      obtain ⟨suf, hsuf⟩ := foldl_runStep_equity_suffix det data rest (runStep det data s p)
      exact ⟨pt :: suf, by rw [hsuf, hpt, List.append_assoc]; rfl⟩

/-- Claim C8: at every step boundary of the simulation (each equity
snapshot is taken at the end of a step), the number of open positions
never exceeds `MAX_POSITIONS`: the entry scan runs only below the cap
and breaks as soon as the cap is reached, so the invariant holds for
any detector and any data. -/
theorem c8_position_cap (detector : List Bar → String → List Setup)
    (data : Data) (sd ed : Option ℕ) (cap : ℚ) (e : EquityPoint)
    (he : e ∈ (run detector data sd ed cap).equity_curve) :
    e.open_positions ≤ MAX_POSITIONS := by
  rw [run_equity_eq_runLoop] at he
  unfold runLoop at he
  refine (foldl_runStep_inv detector data _ (initState cap) (Nat.zero_le _)
    ?_).2 e he
  intro e' he'
  simp [initState] at he'

/-- Witness for C8: the single equity point of a one-bar run has an
open-position count within the cap. -/
theorem c8_witness :
    (⟨0, CAPITAL_INR, 0⟩ : EquityPoint) ∈
      (run detNone dataOneBar none none CAPITAL_INR).equity_curve ∧
    (⟨0, CAPITAL_INR, 0⟩ : EquityPoint).open_positions ≤ MAX_POSITIONS :=
  ⟨by with_unfolding_all decide,
   c8_position_cap detNone dataOneBar none none CAPITAL_INR _
     (by with_unfolding_all decide)⟩

/-- Claim C10: with cooldown enabled, no entry can occur during the
first `MIN_CANDLES_BETWEEN_ANY_TRADE` steps of a run (indices 0 and 1
under the default of 2): `last_trade_candle` starts at 0 and the
global check `i < last_trade_candle + MIN_CANDLES_BETWEEN_ANY_TRADE`
skips every symbol, so the equity snapshots of those steps show zero
open positions. -/
theorem c10_no_entry_first_steps (detector : List Bar → String → List Setup)
    (data : Data) (sd ed : Option ℕ) (cap : ℚ) (i : ℕ) (e : EquityPoint)
    (hi : i < MIN_CANDLES_BETWEEN_ANY_TRADE)
    (he : (run detector data sd ed cap).equity_curve.get? i = some e) :
    e.open_positions = 0 := by
  rw [run_equity_eq_runLoop] at he
  unfold runLoop at he
  rcases hts : all_timestamps data sd ed with _ | ⟨t0, rest0⟩
  · rw [hts] at he
    simp [initState] at he
  · rw [hts] at he
    rw [show List.enum (t0 :: rest0) = (0, t0) :: List.enumFrom 1 rest0 from rfl,
        List.foldl_cons] at he
    obtain ⟨ho1, pt0, hq1, hp0⟩ :=
      runStep_early detector data (initState cap) (0, t0)
        (by show (0 : ℕ) < MIN_CANDLES_BETWEEN_ANY_TRADE; decide) rfl
    rcases rest0 with _ | ⟨t1, rest⟩
    · rw [show List.enumFrom 1 ([] : List ℕ) = [] from rfl, List.foldl_nil,
          hq1] at he
      have hq1' : (initState cap).equity_curve ++ [pt0] = [pt0] := by
        simp [initState]
      rw [hq1'] at he
      rcases i with _ | _ | i
      · simp at he
        rw [← he]
        exact hp0
      · simp at he
      · exact absurd hi (by simp only [MIN_CANDLES_BETWEEN_ANY_TRADE]; omega)
    · rw [show List.enumFrom 1 (t1 :: rest) = (1, t1) :: List.enumFrom 2 rest
            from rfl, List.foldl_cons] at he
      obtain ⟨ho2, pt1, hq2, hp1⟩ :=
        runStep_early detector data (runStep detector data (initState cap) (0, t0))
          (1, t1) (by show (1 : ℕ) < MIN_CANDLES_BETWEEN_ANY_TRADE; decide) ho1
      obtain ⟨suf, hsuf⟩ := foldl_runStep_equity_suffix detector data
        (List.enumFrom 2 rest)
        (runStep detector data (runStep detector data (initState cap) (0, t0)) (1, t1))
      rw [hsuf, hq2, hq1] at he
      have hflat : (((initState cap).equity_curve ++ [pt0]) ++ [pt1]) ++ suf =
          pt0 :: pt1 :: suf := by
        simp [initState]
      rw [hflat] at he
      rcases i with _ | _ | i
      · simp at he
        rw [← he]
        exact hp0
      · simp at he
        rw [← he]
        exact hp1
      · exact absurd hi (by simp only [MIN_CANDLES_BETWEEN_ANY_TRADE]; omega)

/-- Witness for C10: the first equity point of a one-bar run shows
zero open positions. -/
theorem c10_witness :
    0 < MIN_CANDLES_BETWEEN_ANY_TRADE ∧
    (run detNone dataOneBar none none CAPITAL_INR).equity_curve.get? 0 =
      some ⟨0, CAPITAL_INR, 0⟩ ∧
    (⟨0, CAPITAL_INR, 0⟩ : EquityPoint).open_positions = 0 :=
  ⟨by decide, by with_unfolding_all decide,
   c10_no_entry_first_steps detNone dataOneBar none none CAPITAL_INR 0 _
     (by decide) (by with_unfolding_all decide)⟩

/-- Claim C9: P&L realized by the end-of-data forced closes is added
to the final capital but never reflected in the equity curve — the
curve of a full `run` equals the curve of the loop alone, the final
capital is the loop capital plus the forced-close P&L, and on the
concrete 57-bar run `dataC9` the reported final capital (1020) differs
from the last equity point's capital (1000), so the drawdown
computation over the equity curve never sees the forced-close P&L. -/
theorem c9_forced_close_frame :
    (∀ (detector : List Bar → String → List Setup) (data : Data)
       (sd ed : Option ℕ) (cap : ℚ),
      (run detector data sd ed cap).equity_curve =
        (runLoop detector data (all_timestamps data sd ed) cap).equity_curve ∧
      ∃ forced : List BacktestTrade,
        (run detector data sd ed cap).trades =
          (runLoop detector data (all_timestamps data sd ed) cap).trades ++ forced ∧
        (run detector data sd ed cap).capital =
          (runLoop detector data (all_timestamps data sd ed) cap).capital +
            (forced.map BacktestTrade.pnl_inr).sum) ∧
    (run detC9 dataC9 none none CAPITAL_INR).capital = 1020 ∧
    (run detC9 dataC9 none none CAPITAL_INR).equity_curve.getLast?.map
      EquityPoint.capital = some 1000 ∧
    (1020 : ℚ) ≠ 1000 := by
  refine ⟨?_, ?_, ?_, ?_⟩
  · intro detector data sd ed cap
    refine ⟨run_equity_eq_runLoop detector data sd ed cap, ?_⟩
    unfold run
    dsimp only
    cases h : (all_timestamps data sd ed).getLast? with
    | none => exact ⟨[], by simp, by simp⟩
    | some fts =>
      dsimp only
      exact (forcedClose_frame data fts _).2
  · with_unfolding_all decide
  · with_unfolding_all decide
  · with_unfolding_all decide

lemma lastO_rangeMap (g : ℕ → Option ℚ) (n : ℕ) (h : 0 < n) :
    lastO ((List.range n).map g) = g (n - 1) := by
  unfold lastO
  rw [List.length_map, List.length_range, List.get?_map, List.get?_range (by omega)]
  rfl

lemma penultO_rangeMap (g : ℕ → Option ℚ) (n : ℕ) (h : 2 ≤ n) :
    penultO ((List.range n).map g) = g (n - 2) := by
  unfold penultO
  rw [List.length_map, List.length_range, List.get?_map, List.get?_range (by omega)]
  rfl

lemma lastQ_map_mem (f : Bar → ℚ) :
    ∀ (df : List Bar), df ≠ [] → ∃ b ∈ df, lastQ (df.map f) = f b
  | [], h => absurd rfl h
  | [b], _ => ⟨b, by simp, rfl⟩
  | a :: b :: rest, _ => by
      obtain ⟨c, hc, hv⟩ := lastQ_map_mem f (b :: rest) (by simp)
      refine ⟨c, List.mem_cons_of_mem a hc, ?_⟩
      rw [← hv]
      unfold lastQ
      simp [List.getLast?]

lemma getD_map_close (df : List Bar) (j : ℕ) :
    atQ (df.map Bar.close) j = (df.getD j default).close := by
  unfold atQ
  by_cases h : j < df.length
  · rw [List.getD_eq_getElem _ _ (by simpa using h), List.getD_eq_getElem _ _ h]
    simp
  · rw [List.getD_eq_default _ _ (by simpa using not_lt.mp h),
        List.getD_eq_default _ _ (not_lt.mp h)]
    rfl

lemma getD_map_high (df : List Bar) (j : ℕ) :
    atQ (df.map Bar.high) j = (df.getD j default).high := by
  unfold atQ
  by_cases h : j < df.length
  · rw [List.getD_eq_getElem _ _ (by simpa using h), List.getD_eq_getElem _ _ h]
    simp
  · rw [List.getD_eq_default _ _ (by simpa using not_lt.mp h),
        List.getD_eq_default _ _ (not_lt.mp h)]
    rfl

lemma getD_map_low (df : List Bar) (j : ℕ) :
    atQ (df.map Bar.low) j = (df.getD j default).low := by
  unfold atQ
  by_cases h : j < df.length
  · rw [List.getD_eq_getElem _ _ (by simpa using h), List.getD_eq_getElem _ _ h]
    simp
  · rw [List.getD_eq_default _ _ (by simpa using not_lt.mp h),
        List.getD_eq_default _ _ (not_lt.mp h)]
    rfl

lemma getD_mem_of_lt (df : List Bar) (j : ℕ) (h : j < df.length) :
    df.getD j default ∈ df := by
  rw [List.getD_eq_getElem _ _ h]
  exact List.getElem_mem _

lemma list_sum_zero_of_nonneg :
    ∀ (l : List ℚ), (∀ x ∈ l, 0 ≤ x) → l.sum = 0 → ∀ x ∈ l, x = 0
  | [], _, _, x, hx => absurd hx (List.not_mem_nil x)
  | a :: rest, hpos, hsum, x, hx => by
      rw [List.sum_cons] at hsum
      have ha : 0 ≤ a := hpos a (by simp)
      have hr : 0 ≤ rest.sum := List.sum_nonneg (fun y hy => hpos y (by simp [hy]))
      have ha0 : a = 0 := by linarith
      have hr0 : rest.sum = 0 := by linarith
      rcases List.mem_cons.mp hx with h | h
      · rw [h, ha0]
      · exact list_sum_zero_of_nonneg rest
          (fun y hy => hpos y (by simp [hy])) hr0 x h

lemma atr_last_eq (df : List Bar) (h : 14 ≤ df.length) :
    lastO (atr df ATR_PERIOD) =
      some (windowSum (trAt df) (df.length - 1) 14 / 14) := by
  unfold atr ATR_PERIOD
  rw [lastO_rangeMap _ _ (by omega)]
  have h14 : 14 ≤ df.length - 1 + 1 := by omega
  simp [h14]

lemma trAt_nonneg (df : List Bar) (hwf : ∀ b ∈ df, WellFormedBar b) (j : ℕ) :
    0 ≤ trAt df j := by
  unfold trAt
  split_ifs with h0
  · subst h0
    by_cases hl : 0 < df.length
    · have hb := hwf _ (getD_mem_of_lt df 0 hl)
      unfold WellFormedBar at hb
      dsimp only
      linarith [hb.2.1]
    · have hd : df.getD 0 default = default := by
        rw [List.getD_eq_default]
        omega
      dsimp only
      rw [hd]
      norm_num [default]
  · exact le_trans (abs_nonneg _) (le_max_right _ _)

lemma windowSum_tr_nonneg (df : List Bar) (hwf : ∀ b ∈ df, WellFormedBar b)
    (i : ℕ) : 0 ≤ windowSum (trAt df) i 14 := by
  unfold windowSum windowList
  apply List.sum_nonneg
  intro x hx
  obtain ⟨k, _, rfl⟩ := List.mem_map.mp hx
  exact trAt_nonneg df hwf _

lemma atr_window_zero_all (df : List Bar) (hwf : ∀ b ∈ df, WellFormedBar b)
    (i : ℕ) (hz : windowSum (trAt df) i 14 = 0) :
    ∀ k < 14, trAt df (i + 1 - 14 + k) = 0 := by
  intro k hk
  refine list_sum_zero_of_nonneg (windowList (trAt df) i 14) ?_ hz _ ?_
  · intro x hx
    obtain ⟨k', _, rfl⟩ := List.mem_map.mp hx
    exact trAt_nonneg df hwf _
  · exact List.mem_map.mpr ⟨k, List.mem_range.mpr hk, rfl⟩

lemma tr_zero_flat (df : List Bar) (hwf : ∀ b ∈ df, WellFormedBar b) (j : ℕ)
    (hj1 : 1 ≤ j) (hjn : j < df.length) (hz : trAt df j = 0) :
    (df.getD j default).close = (df.getD (j - 1) default).close := by
  unfold trAt at hz
  rw [if_neg (by omega)] at hz
  dsimp only at hz
  have hhigh : |(df.getD j default).high - (df.getD (j - 1) default).close| = 0 := by
    refine le_antisymm ?_ (abs_nonneg _)
    rw [← hz]
    exact le_trans (le_max_right _ _) (le_max_left _ _)
  have hlow : |(df.getD j default).low - (df.getD (j - 1) default).close| = 0 := by
    refine le_antisymm ?_ (abs_nonneg _)
    rw [← hz]
    exact le_max_right _ _
  have hh := sub_eq_zero.mp (abs_eq_zero.mp hhigh)
  have hl := sub_eq_zero.mp (abs_eq_zero.mp hlow)
  have hb := hwf _ (getD_mem_of_lt df j hjn)
  unfold WellFormedBar at hb
  have h1 := hb.2.2.1
  have h2 := hb.2.2.2
  rw [hh] at h2
  rw [hl] at h1
  linarith

lemma rsi_last_none_of_atr_zero (df : List Bar)
    (hwf : ∀ b ∈ df, WellFormedBar b) (hn : 55 ≤ df.length)
    (hz : windowSum (trAt df) (df.length - 1) 14 = 0) :
    lastO (rsi (df.map Bar.close) 14) = none := by
  have hflat := atr_window_zero_all df hwf (df.length - 1) hz
  have hgain : ∀ k < 14, gainAt (df.map Bar.close) (df.length - 1 + 1 - 14 + k) = 0 ∧
      lossAt (df.map Bar.close) (df.length - 1 + 1 - 14 + k) = 0 := by
    intro k hk
    have htr := hflat k hk
    have hcl := tr_zero_flat df hwf (df.length - 1 + 1 - 14 + k)
      (by omega) (by omega) htr
    constructor
    · unfold gainAt
      rw [if_neg (by omega), getD_map_close, getD_map_close, hcl]
      simp
    · unfold lossAt
      rw [if_neg (by omega), getD_map_close, getD_map_close, hcl]
      simp
  have hg : windowSum (gainAt (df.map Bar.close)) (df.length - 1) 14 = 0 := by
    unfold windowSum windowList
    apply List.sum_eq_zero
    intro x hx
    obtain ⟨k, hk, rfl⟩ := List.mem_map.mp hx
    exact (hgain k (List.mem_range.mp hk)).1
  have hl : windowSum (lossAt (df.map Bar.close)) (df.length - 1) 14 = 0 := by
    unfold windowSum windowList
    apply List.sum_eq_zero
    intro x hx
    obtain ⟨k, hk, rfl⟩ := List.mem_map.mp hx
    exact (hgain k (List.mem_range.mp hk)).2
  unfold rsi
  rw [List.length_map, lastO_rangeMap _ _ (by omega)]
  have h14 : 14 ≤ df.length - 1 + 1 := by omega
  rw [if_pos h14]
  dsimp only
  rw [hg, hl]
  norm_num

lemma windowList_atQ_high_pos (df : List Bar)
    (hwf : ∀ b ∈ df, WellFormedBar b) (i n : ℕ) (hn : n ≤ i + 1)
    (hi : i < df.length) (v : ℚ)
    (hv : v ∈ windowList (atQ (df.map Bar.high)) i n) : 0 < v := by
  obtain ⟨k, hk, rfl⟩ := List.mem_map.mp hv
  rw [getD_map_high]
  have hj : i + 1 - n + k ≤ i := by
    have := List.mem_range.mp hk
    omega
  have hb := hwf _ (getD_mem_of_lt df (i + 1 - n + k) (by omega))
  unfold WellFormedBar at hb
  linarith [hb.1, hb.2.1]

lemma windowList_atQ_low_pos (df : List Bar)
    (hwf : ∀ b ∈ df, WellFormedBar b) (i n : ℕ) (hn : n ≤ i + 1)
    (hi : i < df.length) (v : ℚ)
    (hv : v ∈ windowList (atQ (df.map Bar.low)) i n) : 0 < v := by
  obtain ⟨k, hk, rfl⟩ := List.mem_map.mp hv
  rw [getD_map_low]
  have hj : i + 1 - n + k ≤ i := by
    have := List.mem_range.mp hk
    omega
  have hb := hwf _ (getD_mem_of_lt df (i + 1 - n + k) (by omega))
  unfold WellFormedBar at hb
  linarith [hb.1]

lemma penultO_rolling_high_pos (df : List Bar)
    (hwf : ∀ b ∈ df, WellFormedBar b) (hn : 21 ≤ df.length) (v : ℚ)
    (h : penultO (rolling_high (df.map Bar.high) 20) = some v) : 0 < v := by
  unfold rolling_high at h
  rw [List.length_map, penultO_rangeMap _ _ (by omega),
      if_pos (by omega : 20 ≤ df.length - 2 + 1)] at h
  exact windowList_atQ_high_pos df hwf _ _ (by omega) (by omega) v
    (List.max?_mem max_choice h)

lemma penultO_rolling_low_pos (df : List Bar)
    (hwf : ∀ b ∈ df, WellFormedBar b) (hn : 21 ≤ df.length) (v : ℚ)
    (h : penultO (rolling_low (df.map Bar.low) 20) = some v) : 0 < v := by
  unfold rolling_low at h
  rw [List.length_map, penultO_rangeMap _ _ (by omega),
      if_pos (by omega : 20 ≤ df.length - 2 + 1)] at h
  exact windowList_atQ_low_pos df hwf _ _ (by omega) (by omega) v
    (List.min?_mem min_choice h)

lemma lastO_rolling_high5_pos (df : List Bar)
    (hwf : ∀ b ∈ df, WellFormedBar b) (hn : 5 ≤ df.length) (v : ℚ)
    (h : lastO (rolling_high (df.map Bar.high) 5) = some v) : 0 < v := by
  unfold rolling_high at h
  rw [List.length_map, lastO_rangeMap _ _ (by omega),
      if_pos (by omega : 5 ≤ df.length - 1 + 1)] at h
  exact windowList_atQ_high_pos df hwf _ _ (by omega) (by omega) v
    (List.max?_mem max_choice h)

lemma lastO_rolling_low5_pos (df : List Bar)
    (hwf : ∀ b ∈ df, WellFormedBar b) (hn : 5 ≤ df.length) (v : ℚ)
    (h : lastO (rolling_low (df.map Bar.low) 5) = some v) : 0 < v := by
  unfold rolling_low at h
  rw [List.length_map, lastO_rangeMap _ _ (by omega),
      if_pos (by omega : 5 ≤ df.length - 1 + 1)] at h
  exact windowList_atQ_low_pos df hwf _ _ (by omega) (by omega) v
    (List.min?_mem min_choice h)

lemma lastQ_close_pos (df : List Bar) (hwf : ∀ b ∈ df, WellFormedBar b)
    (hne : df ≠ []) : 0 < lastQ (df.map Bar.close) := by
  obtain ⟨b, hbmem, hbv⟩ := lastQ_map_mem Bar.close df hne
  have hb := hwf b hbmem
  unfold WellFormedBar at hb
  rw [hbv]
  linarith [hb.1, hb.2.2.1]

lemma detect_momentum_inv (df : List Bar) (hwf : ∀ b ∈ df, WellFormedBar b)
    (s : Setup) (h : detect_momentum df = some s) :
    (s.direction = "LONG" → s.stop < s.entry ∧ s.entry < s.target) ∧
    (s.direction = "SHORT" → s.target < s.entry ∧ s.entry < s.stop) := by
  unfold detect_momentum at h
  have hlen : ¬ df.length < 5 := by
    intro hl
    rw [if_pos hl] at h
    exact Option.noConfusion h
  rw [if_neg hlen] at h
  dsimp only at h
  have hp : 0 < lastQ (df.map Bar.close) :=
    lastQ_close_pos df hwf (by intro hnil; subst hnil; simp at hlen)
  split_ifs at h with hr1 hr2
  · rw [Option.some.injEq] at h
    subst h
    refine ⟨fun _ => ?_, fun hdir => absurd hdir (by simp)⟩
    constructor <;> dsimp only <;> nlinarith [hp]
  · rw [Option.some.injEq] at h
    subst h
    refine ⟨fun hdir => absurd hdir (by simp), fun _ => ?_⟩
    constructor <;> dsimp only <;> nlinarith [hp]

lemma atr_if_use_eq (df : List Bar) (h : 14 ≤ df.length) :
    (if USE_ATR_BASED_EXITS then lastO (atr df ATR_PERIOD) else none) =
      some (windowSum (trAt df) (df.length - 1) 14 / 14) := by
  rw [if_pos (show USE_ATR_BASED_EXITS = true from rfl)]
  exact atr_last_eq df h

lemma atr_div_zero_sum_zero (df : List Bar)
    (hz : windowSum (trAt df) (df.length - 1) 14 / 14 = 0) :
    windowSum (trAt df) (df.length - 1) 14 = 0 := by
  rcases div_eq_zero_iff.mp hz with h | h
  · exact h
  · norm_num at h

lemma atr_val_pos (df : List Bar) (hwf : ∀ b ∈ df, WellFormedBar b)
    (hne : ¬ windowSum (trAt df) (df.length - 1) 14 / 14 = 0) :
    0 < windowSum (trAt df) (df.length - 1) 14 / 14 :=
  lt_of_le_of_ne (div_nonneg (windowSum_tr_nonneg df hwf _) (by norm_num))
    (Ne.symm hne)

lemma detect_breakout_inv (df : List Bar) (hwf : ∀ b ∈ df, WellFormedBar b)
    (s : Setup) (h : detect_breakout df = some s) :
    (s.direction = "LONG" → s.stop < s.entry ∧ s.entry < s.target) ∧
    (s.direction = "SHORT" → s.target < s.entry ∧ s.entry < s.stop) := by
  unfold detect_breakout at h
  have hlen : ¬ df.length < 21 := by
    intro hl
    rw [if_pos hl] at h
    exact Option.noConfusion h
  rw [if_neg hlen] at h
  dsimp only at h
  have hp : 0 < lastQ (df.map Bar.close) :=
    lastQ_close_pos df hwf (by intro hnil; subst hnil; simp at hlen)
  split at h
  · rename_i high_20 low_20 heq1 heq2
    have h20 : 0 < high_20 := penultO_rolling_high_pos df hwf (by omega) _ heq1
    have l20 : 0 < low_20 := penultO_rolling_low_pos df hwf (by omega) _ heq2
    rw [atr_if_use_eq df (by omega)] at h
    dsimp only at h
    split_ifs at h with a1 a2 a3 a4
    · rw [Option.some.injEq] at h
      subst h
      have hvpos := atr_val_pos df hwf a2
      refine ⟨fun _ => ?_, fun hdir => absurd hdir (by simp)⟩
      constructor <;> dsimp only <;>
        simp only [STOP_LOSS_ATR_MULTIPLE, TAKE_PROFIT_1_ATR_MULTIPLE] <;>
        linarith
    · rw [Option.some.injEq] at h
      subst h
      refine ⟨fun _ => ?_, fun hdir => absurd hdir (by simp)⟩
      constructor <;> dsimp only <;> nlinarith [h20, hp, a1]
    · rw [Option.some.injEq] at h
      subst h
      have hvpos := atr_val_pos df hwf a4
      refine ⟨fun hdir => absurd hdir (by simp), fun _ => ?_⟩
      constructor <;> dsimp only <;>
        simp only [STOP_LOSS_ATR_MULTIPLE, TAKE_PROFIT_1_ATR_MULTIPLE] <;>
        linarith
    · rw [Option.some.injEq] at h
      subst h
      refine ⟨fun hdir => absurd hdir (by simp), fun _ => ?_⟩
      constructor <;> dsimp only <;> nlinarith [l20, hp, a3]
  · exact Option.noConfusion h

lemma detect_rsi_extreme_inv (df : List Bar) (hwf : ∀ b ∈ df, WellFormedBar b)
    (s : Setup) (h : detect_rsi_extreme df = some s) :
    (s.direction = "LONG" → s.stop < s.entry ∧ s.entry < s.target) ∧
    (s.direction = "SHORT" → s.target < s.entry ∧ s.entry < s.stop) := by
  unfold detect_rsi_extreme at h
  have hlen : ¬ df.length < 20 := by
    intro hl
    rw [if_pos hl] at h
    exact Option.noConfusion h
  rw [if_neg hlen] at h
  dsimp only at h
  have hp : 0 < lastQ (df.map Bar.close) :=
    lastQ_close_pos df hwf (by intro hnil; subst hnil; simp at hlen)
  split at h
  · rename_i recent_low recent_high heq1 heq2
    have rl0 : 0 < recent_low := lastO_rolling_low5_pos df hwf (by omega) _ heq1
    have rh0 : 0 < recent_high := lastO_rolling_high5_pos df hwf (by omega) _ heq2
    rw [atr_if_use_eq df (by omega)] at h
    dsimp only at h
    split_ifs at h with a1 a2 a3 a4
    · rw [Option.some.injEq] at h
      subst h
      have hvpos := atr_val_pos df hwf a2
      refine ⟨fun _ => ?_, fun hdir => absurd hdir (by simp)⟩
      constructor <;> dsimp only <;>
        simp only [STOP_LOSS_ATR_MULTIPLE, TAKE_PROFIT_1_ATR_MULTIPLE] <;>
        linarith
    · rw [Option.some.injEq] at h
      subst h
      refine ⟨fun _ => ?_, fun hdir => absurd hdir (by simp)⟩
      constructor <;> dsimp only <;> nlinarith [rl0, hp, a1.2]
    · rw [Option.some.injEq] at h
      subst h
      have hvpos := atr_val_pos df hwf a4
      refine ⟨fun hdir => absurd hdir (by simp), fun _ => ?_⟩
      constructor <;> dsimp only <;>
        simp only [STOP_LOSS_ATR_MULTIPLE, TAKE_PROFIT_1_ATR_MULTIPLE] <;>
        linarith
    · rw [Option.some.injEq] at h
      subst h
      refine ⟨fun hdir => absurd hdir (by simp), fun _ => ?_⟩
      constructor <;> dsimp only <;> nlinarith [rh0, hp, a3.2]
  · exact Option.noConfusion h

lemma detect_ema_pullback_inv (df : List Bar) (hwf : ∀ b ∈ df, WellFormedBar b)
    (s : Setup) (h : detect_ema_pullback df = some s) :
    (s.direction = "LONG" → s.stop < s.entry ∧ s.entry < s.target) ∧
    (s.direction = "SHORT" → s.target < s.entry ∧ s.entry < s.stop) := by
  unfold detect_ema_pullback at h
  have hlen : ¬ df.length < 55 := by
    intro hl
    rw [if_pos hl] at h
    exact Option.noConfusion h
  rw [if_neg hlen] at h
  dsimp only at h
  rw [atr_if_use_eq df (by omega)] at h
  dsimp only at h
  split_ifs at h with c1 c2 c3 c4 c5 c6 c7 c8 c9 c10 <;>
    first
    | exact Option.noConfusion h
    | exact absurd rfl ‹¬REQUIRE_ENTRY_CONFIRMATION = true›
    | exact absurd ⟨rfl, rfl⟩
        ‹¬(REQUIRE_ENTRY_CONFIRMATION = true ∧ FEATURES "entry_confirmation" = true)›
    | skip
  · -- LONG, nonzero ATR
    split at h
    · rename_i r heqr
      split_ifs at h with hb
      rw [Option.some.injEq] at h
      subst h
      have hvpos := atr_val_pos df hwf
        ‹windowSum (trAt df) (df.length - 1) 14 / 14 ≠ 0›
      refine ⟨fun _ => ?_, fun hdir => absurd hdir (by simp)⟩
      constructor <;> dsimp only <;>
        simp only [STOP_LOSS_ATR_MULTIPLE, TAKE_PROFIT_1_ATR_MULTIPLE] <;>
        linarith
    · exact Option.noConfusion h
  · -- LONG, zero ATR: flat window makes the RSI NaN, so the branch is
    -- unreachable
    split at h
    · rename_i r heqr
      have h0 := atr_div_zero_sum_zero df
        (not_not.mp ‹¬windowSum (trAt df) (df.length - 1) 14 / 14 ≠ 0›)
      rw [rsi_last_none_of_atr_zero df hwf (by omega) h0] at heqr
      exact Option.noConfusion heqr
    · exact Option.noConfusion h
  · -- SHORT, nonzero ATR
    split at h
    · rename_i r heqr
      split_ifs at h with hb
      rw [Option.some.injEq] at h
      subst h
      have hvpos := atr_val_pos df hwf
        ‹windowSum (trAt df) (df.length - 1) 14 / 14 ≠ 0›
      refine ⟨fun hdir => absurd hdir (by simp), fun _ => ?_⟩
      constructor <;> dsimp only <;>
        simp only [STOP_LOSS_ATR_MULTIPLE, TAKE_PROFIT_1_ATR_MULTIPLE] <;>
        linarith
    · exact Option.noConfusion h
  · -- SHORT, zero ATR: unreachable as above
    split at h
    · rename_i r heqr
      have h0 := atr_div_zero_sum_zero df
        (not_not.mp ‹¬windowSum (trAt df) (df.length - 1) 14 / 14 ≠ 0›)
      rw [rsi_last_none_of_atr_zero df hwf (by omega) h0] at heqr
      exact Option.noConfusion heqr
    · exact Option.noConfusion h

lemma detect_range_bounce_type (df : List Bar) (s : Setup)
    (h : detect_range_bounce df = some s) :
    s.type = "RANGE_BOUNCE_LONG" ∨ s.type = "RANGE_BOUNCE_SHORT" := by
  unfold detect_range_bounce at h
  have hlen : ¬ df.length < 50 := by
    intro hl
    rw [if_pos hl] at h
    exact Option.noConfusion h
  rw [if_neg hlen] at h
  dsimp only at h
  split_ifs at h with w1
  split at h
  · rename_i lower_band upper_band middle_last heq1 heq2 heq3
    split_ifs at h with b1 b2
    · rw [Option.some.injEq] at h
      subst h
      exact Or.inl rfl
    · rw [Option.some.injEq] at h
      subst h
      exact Or.inr rfl
  · exact Option.noConfusion h

lemma runDetectors_inv (df : List Bar) (hwf : ∀ b ∈ df, WellFormedBar b)
    (symbol trend : String) (s : Setup)
    (hmem : s ∈ runDetectors detectors df symbol trend) :
    (s.direction = "LONG" → s.stop < s.entry ∧ s.entry < s.target) ∧
    (s.direction = "SHORT" → s.target < s.entry ∧ s.entry < s.stop) := by
  unfold runDetectors detectors at hmem
  obtain ⟨d, hd, hc⟩ := List.mem_flatMap.mp hmem
  simp only [List.mem_cons, List.not_mem_nil, or_false] at hd
  rcases hd with rfl | rfl | rfl | rfl | rfl
  · unfold detectorContribution at hc
    dsimp only at hc
    cases hx : detect_ema_pullback df with
    | none => rw [hx] at hc; exact absurd hc (List.not_mem_nil s)
    | some s0 =>
      rw [hx] at hc
      dsimp only at hc
      split_ifs at hc <;> try exact absurd hc (List.not_mem_nil s)
      all_goals rw [List.mem_singleton] at hc
      all_goals subst hc
      all_goals exact detect_ema_pullback_inv df hwf s0 hx
  · unfold detectorContribution at hc
    dsimp only at hc
    cases hx : detect_breakout df with
    | none => rw [hx] at hc; exact absurd hc (List.not_mem_nil s)
    | some s0 =>
      rw [hx] at hc
      dsimp only at hc
      split_ifs at hc <;> try exact absurd hc (List.not_mem_nil s)
      all_goals rw [List.mem_singleton] at hc
      all_goals subst hc
      all_goals exact detect_breakout_inv df hwf s0 hx
  · unfold detectorContribution at hc
    dsimp only at hc
    cases hx : detect_rsi_extreme df with
    | none => rw [hx] at hc; exact absurd hc (List.not_mem_nil s)
    | some s0 =>
      rw [hx] at hc
      dsimp only at hc
      split_ifs at hc <;> try exact absurd hc (List.not_mem_nil s)
      all_goals rw [List.mem_singleton] at hc
      all_goals subst hc
      all_goals exact detect_rsi_extreme_inv df hwf s0 hx
  · unfold detectorContribution at hc
    dsimp only at hc
    cases hx : detect_range_bounce df with
    | none => rw [hx] at hc; exact absurd hc (List.not_mem_nil s)
    | some s0 =>
      rw [hx] at hc
      dsimp only at hc
      split_ifs at hc with g1 g2 <;> try exact absurd hc (List.not_mem_nil s)
      all_goals
        rcases detect_range_bounce_type df s0 hx with ht | ht <;>
          rw [ht] at g2 <;> exact absurd g2 (by decide)
  · unfold detectorContribution at hc
    dsimp only at hc
    cases hx : detect_momentum df with
    | none => rw [hx] at hc; exact absurd hc (List.not_mem_nil s)
    | some s0 =>
      rw [hx] at hc
      dsimp only at hc
      split_ifs at hc <;> try exact absurd hc (List.not_mem_nil s)
      all_goals rw [List.mem_singleton] at hc
      all_goals subst hc
      all_goals exact detect_momentum_inv df hwf s0 hx

/-- Counterexample to claim C1 as stated: on a flat 50-bar series the
range-bounce evaluator returns a LONG Setup whose target equals its
entry (both 100, the Bollinger middle band of a flat series), so
`stop < entry < target` fails. -/
theorem c1_counterexample :
    (detect_range_bounce (flatBars 50)).map Setup.direction = some "LONG" ∧
    (detect_range_bounce (flatBars 50)).map Setup.entry = some 100 ∧
    (detect_range_bounce (flatBars 50)).map Setup.stop = some 99 ∧
    (detect_range_bounce (flatBars 50)).map Setup.target = some 100 ∧
    ¬ ((100 : ℚ) < 100) := by
  refine ⟨?_, ?_, ?_, ?_, by norm_num⟩ <;> with_unfolding_all decide

/-- Claim C1 (amended): on a well-formed bar series (positive prices,
close within the low-high range), every Setup returned by the
EMA-pullback, breakout, RSI-extreme and momentum evaluators satisfies
the invariant (LONG ⇒ stop < entry < target; SHORT ⇒ target < entry <
stop), and so does every Setup surviving the detector loop of
`detect_all_setups` (which drops range-bounce candidates through the
`ENABLED_SETUPS` table); the range-bounce evaluator itself can violate
the invariant. -/
theorem c1_amended_invariant (df : List Bar)
    (hwf : ∀ b ∈ df, WellFormedBar b) (s : Setup)
    (h : detect_ema_pullback df = some s ∨ detect_breakout df = some s ∨
      detect_rsi_extreme df = some s ∨ detect_momentum df = some s ∨
      ∃ symbol trend, s ∈ runDetectors detectors df symbol trend) :
    (s.direction = "LONG" → s.stop < s.entry ∧ s.entry < s.target) ∧
    (s.direction = "SHORT" → s.target < s.entry ∧ s.entry < s.stop) := by
  rcases h with h | h | h | h | ⟨sym, tr, h⟩
  · exact detect_ema_pullback_inv df hwf s h
  · exact detect_breakout_inv df hwf s h
  · exact detect_rsi_extreme_inv df hwf s h
  · exact detect_momentum_inv df hwf s h
  · exact runDetectors_inv df hwf sym tr s h

/-- Witness for C1 (amended): the momentum Setup fired on `dfMomentum`
satisfies the invariant. -/
theorem c1_witness :
    setupMomentumW.stop < setupMomentumW.entry ∧
      setupMomentumW.entry < setupMomentumW.target :=
  (c1_amended_invariant dfMomentum (by decide) setupMomentumW
    (Or.inr (Or.inr (Or.inr (Or.inl (by
      unfold detect_momentum dfMomentum setupMomentumW
      norm_num [lastQ, atQ])))))).1 rfl
